import Mathlib

/-!
Archipelago device driver: frame codec, message codecs and session.

A shallow embedding of `src/device-driver.cpp` and `src/mainwindow.cpp`.

* A `QByteArray` is a list of byte values (naturals in `0..255`).
* C++ fixed-width integers are naturals reduced modulo `2 ^ w` at every place
  where the C++ type truncates.
* The Qt library functions used by the driver (`toHex`, `fromHex`, `toUpper`,
  `mid`, `remove`, `startsWith`) are modelled after the Qt 5 implementation.
-/

namespace Archipelago

/-- A byte array: the list of its bytes, each a natural number below 256. -/
abbrev QByteArray := List Nat

/-- The bytes of an ASCII string literal, used to write frames readably. -/
def ascii (s : String) : QByteArray := s.toList.map Char.toNat

/-! ## Qt library model -/

namespace Qt

/-- Upper-casing of one byte as done by `QByteArray::toUpper` on ASCII input:
the letters `a`..`z` are moved to `A`..`Z`, every other byte below 128 is kept.
(Bytes of 128 and above never occur in the frames of this driver.) -/
def toUpperByte (ch : Nat) : Nat :=
  if 0x61 ≤ ch ∧ ch ≤ 0x7A then ch - 0x20 else ch

/-- The function `QByteArray::toUpper`. -/
def toUpper (data : QByteArray) : QByteArray := data.map toUpperByte

/-- The function `QtMiscUtils::toHexLower`: the character `"0123456789abcdef"[value & 0xF]`. -/
def toHexLower (value : Nat) : Nat :=
  if value % 16 < 10 then 0x30 + value % 16 else 0x61 + (value % 16 - 10)

/-- The function `QByteArray::toHex`: two lower-case hex characters per byte, high nibble first. -/
def toHex (data : QByteArray) : QByteArray :=
  data.flatMap fun b => [toHexLower (b / 16), toHexLower (b % 16)]

/-- The function `QtMiscUtils::fromHex`: the value of a hex digit character of either
case, `none` (the C++ `-1`) for any other character. -/
def fromHexDigit (ch : Nat) : Option Nat :=
  if 0x30 ≤ ch ∧ ch ≤ 0x39 then some (ch - 0x30)
  else if 0x41 ≤ ch ∧ ch ≤ 0x46 then some (ch - 0x41 + 10)
  else if 0x61 ≤ ch ∧ ch ≤ 0x66 then some (ch - 0x61 + 10)
  else none

/-- One iteration of the loop of `QByteArray::fromHex`. The state is the flag
`odd_digit` and the bytes written so far (the output buffer is filled from its end,
so writing a new byte is a `cons` and `*result |= tmp << 4` updates the head). -/
def fromHexStep (ch : Nat) (st : Bool × QByteArray) : Bool × QByteArray :=
  match fromHexDigit ch with
  | none => st
  | some tmp =>
    if st.1 then (false, tmp :: st.2)
    else
      match st.2 with
      | [] => (true, [])
      | r :: rest => (true, (r ||| (tmp <<< 4)) :: rest)

/-- The function `QByteArray::fromHex`: the input is scanned from its last character
to its first, characters that are not hex digits are skipped, and the digits are
paired from the right. -/
def fromHex (hexEncoded : QByteArray) : QByteArray :=
  (hexEncoded.foldr fromHexStep (true, [])).2

/-- Conversion of an `int` to `unsigned int`. -/
def toUInt (z : Int) : Nat := (z % 2 ^ 32).toNat

/-- Conversion of an `unsigned int` to `int` (two's complement). -/
def toInt (n : Nat) : Int :=
  if n % 2 ^ 32 < 2 ^ 31 then ((n % 2 ^ 32 : Nat) : Int) else ((n % 2 ^ 32 : Nat) : Int) - 2 ^ 32

/-- The function `QByteArray::mid(int pos, int len)`, following
`QContainerImplHelper::mid` of Qt 5. -/
def mid (data : QByteArray) (pos len : Int) : QByteArray :=
  let size : Int := data.length
  if pos > size then []
  else if pos < 0 then
    if len < 0 ∨ len + pos ≥ size then data
    else if len + pos ≤ 0 then []
    else data.take (len + pos).toNat
  else
    let len1 : Int := if toUInt len > toUInt (size - pos) then size - pos else len
    (data.drop pos.toNat).take len1.toNat

/-- The function `QByteArray::remove(0, len)` for a non-negative `len`. -/
def removeFront (data : QByteArray) (len : Nat) : QByteArray := data.drop len

/-- The function `QByteArray::startsWith`. -/
def startsWith (data ba : QByteArray) : Bool := ba.isPrefixOf data

end Qt

/-! ## Protocol constants (`namespace Codes`) -/

namespace Codes

/-- The request marker `"@"`. -/
def kMasterSlave : QByteArray := [0x40]
/-- The reply marker `"$"`. -/
def kSlaveMaster : QByteArray := [0x24]
/-- The terminator `"\r\n"`. -/
def kCRLF : QByteArray := [0x0D, 0x0A]
/-- The opcode `"55"`. -/
def kPing : QByteArray := [0x35, 0x35]
/-- The opcode `"20"`. -/
def kReadCounters : QByteArray := [0x32, 0x30]
/-- The opcode `"30"`. -/
def kReadParameters : QByteArray := [0x33, 0x30]
/-- The opcode `"40"`. -/
def kSingleCycle : QByteArray := [0x34, 0x30]
/-- The opcode `"2F"`. -/
def kWriteCounters : QByteArray := [0x32, 0x46]
/-- The opcode `"3F"`. -/
def kWriteParameters : QByteArray := [0x33, 0x46]

end Codes

/-! ## Data model (`device-driver.h`) -/

/-- The struct `DeviceDriver::Counters`: two `uint32_t` fields. -/
structure Counters where
  time : Nat
  cycles : Nat
deriving DecidableEq, Repr

/-- The struct `DeviceDriver::Parameters`: five `uint16_t` fields and the `uint8_t` field `ct`. -/
structure Parameters where
  cpm : Nat
  tp : Nat
  tbc : Nat
  tbtp : Nat
  ct : Nat
  tw : Nat
deriving DecidableEq, Repr

/-- The struct `DeviceDriver::MeasuredCharacteristics`: two `uint16_t` fields. -/
structure MeasuredCharacteristics where
  vlt : Nat
  curr : Nat
deriving DecidableEq, Repr

/-- Every field of a `Counters` value fits its C++ type. -/
def Counters.InRange (c : Counters) : Prop := c.time < 2 ^ 32 ∧ c.cycles < 2 ^ 32

/-- Every field of a `Parameters` value fits its C++ type. -/
def Parameters.InRange (p : Parameters) : Prop :=
  p.cpm < 2 ^ 16 ∧ p.tp < 2 ^ 16 ∧ p.tbc < 2 ^ 16 ∧ p.tbtp < 2 ^ 16 ∧ p.ct < 2 ^ 8 ∧ p.tw < 2 ^ 16

/-! ## Frame codec -/

/-- One round of the loop of `CRC8IN`:
`crc = (crc & 0x80) ? ((crc << 1) ^ kPolynomial) : (crc << 1)`, stored in an `unsigned char`. -/
def CRC8IN_round (crc : Nat) : Nat :=
  if crc &&& 0x80 ≠ 0 then ((crc <<< 1) ^^^ 0x31) % 256 else (crc <<< 1) % 256

/-- The loop `for (int i = 8; i; --i)` of `CRC8IN`. -/
def CRC8IN_loop : Nat → Nat → Nat
  | 0, crc => crc
  | i + 1, crc => CRC8IN_loop i (CRC8IN_round crc)

/-- The function `CRC8IN(last_crc, input_data)` on `unsigned char`. -/
def CRC8IN (last_crc input_data : Nat) : Nat :=
  CRC8IN_loop 8 ((last_crc ^^^ input_data) % 256)

/-- The method `DeviceDriver::CalculateCrc`. -/
def CalculateCrc (data : QByteArray) : QByteArray :=
  let tmp := Qt.fromHex data
  let last_crc := tmp.foldl CRC8IN 0xFF
  Qt.toUpper (Qt.toHex [last_crc])

/-- The method `DeviceDriver::AppendCrc`, returning the extended array. -/
def AppendCrc (data : QByteArray) : QByteArray := data ++ CalculateCrc data

/-- The value `kMessageLength` of the three `Extract` methods: the subtraction is done
in `unsigned int` (the index and the CRC length are unsigned) and stored in an `int`. -/
def kMessageLength (data : QByteArray) (kMessageIndex : Nat) : Int :=
  Qt.toInt (Qt.toUInt
    ((((data.length : Int) - kMessageIndex) - (Codes.kCRLF.length : Int)) - 2))

/-- The method `DeviceDriver::ExtractBody`. -/
def ExtractBody (data : QByteArray) : QByteArray :=
  if kMessageLength data 1 > 0 then Qt.mid data 1 (kMessageLength data 1) else []

/-- The method `DeviceDriver::ExtractData`. -/
def ExtractData (data : QByteArray) : QByteArray :=
  if kMessageLength data 3 > 0 then Qt.mid data 3 (kMessageLength data 3) else []

/-- The method `DeviceDriver::ExtractCrc`. -/
def ExtractCrc (data : QByteArray) : QByteArray :=
  let kCrcIndex : Nat := Qt.toUInt (1 + kMessageLength data 1)
  if kMessageLength data 1 > 0 then Qt.mid data (Qt.toInt kCrcIndex) 2 else []

/-- The method `DeviceDriver::CheckCrc`. -/
def CheckCrc (data : QByteArray) : Bool :=
  let crc := ExtractCrc data
  let tmp := ExtractBody data
  let calc_crc := CalculateCrc tmp
  crc.length != 0 && tmp.length != 0 && calc_crc.length != 0 && calc_crc == crc

/-! ## Message codecs -/

/-- The loop of `ValueToRaw<T>`: `kSize` times append `value & 0xff` and shift `value`
right by 8 inside the `bits`-bit type `T`. -/
def ValueToRaw_loop (bits : Nat) : Nat → Nat → QByteArray → QByteArray
  | 0, _, result => result
  | n + 1, value, result =>
    ValueToRaw_loop bits n ((value >>> 8) % 2 ^ bits) (result ++ [value &&& 0xff])

/-- The function template `ValueToRaw<T>` for an unsigned type `T` of `kSize` bytes. -/
def ValueToRaw (kSize : Nat) (value : Nat) : QByteArray :=
  Qt.toHex (ValueToRaw_loop (8 * kSize) kSize (value % 2 ^ (8 * kSize)) [])

/-- The method `Counters::Serialize`. -/
def Counters.Serialize (counters : Counters) : QByteArray :=
  ValueToRaw 4 counters.cycles ++ ValueToRaw 4 counters.time

/-- The method `Parameters::Serialize`. -/
def Parameters.Serialize (parameters : Parameters) : QByteArray :=
  ValueToRaw 2 parameters.cpm ++ ValueToRaw 2 parameters.tp ++ ValueToRaw 2 parameters.tbc
    ++ ValueToRaw 2 parameters.tbtp ++ ValueToRaw 1 parameters.ct ++ ValueToRaw 2 parameters.tw

/-- The function template `ValueFromRaw<T>` for an unsigned type `T` of `kRawSize` bytes:
the accumulator is a `uint32_t`, the result is converted to `T`. -/
def ValueFromRaw (kRawSize : Nat) (raw : QByteArray) : Nat :=
  let result :=
    if raw.length ≥ kRawSize then
      let tmp := (Qt.mid raw 0 kRawSize).reverse
      tmp.foldl (fun result b => (((result <<< 8) % 2 ^ 32) + b) % 2 ^ 32) 0
    else 0
  result % 2 ^ (8 * kRawSize)

/-- The method `Counters::Deserialize`. -/
def Counters.Deserialize (raw : QByteArray) : Counters :=
  let tmp := Qt.fromHex raw
  if tmp.length = 8 then
    let cycles := ValueFromRaw 4 tmp
    let tmp := Qt.removeFront tmp 4
    let time := ValueFromRaw 4 tmp
    { time := time, cycles := cycles }
  else { time := 0, cycles := 0 }

/-- The method `Parameters::Deserialize`. -/
def Parameters.Deserialize (raw : QByteArray) : Parameters :=
  let tmp := Qt.fromHex raw
  if tmp.length = 11 then
    let cpm := ValueFromRaw 2 tmp
    let tmp := Qt.removeFront tmp 2
    let tp := ValueFromRaw 2 tmp
    let tmp := Qt.removeFront tmp 2
    let tbc := ValueFromRaw 2 tmp
    let tmp := Qt.removeFront tmp 2
    let tbtp := ValueFromRaw 2 tmp
    let tmp := Qt.removeFront tmp 2
    let ct := ValueFromRaw 1 tmp
    let tmp := Qt.removeFront tmp 1
    let tw := ValueFromRaw 2 tmp
    { cpm := cpm, tp := tp, tbc := tbc, tbtp := tbtp, ct := ct, tw := tw }
  else { cpm := 0, tp := 0, tbc := 0, tbtp := 0, ct := 0, tw := 0 }

/-- The method `MeasuredCharacteristics::Deserialize`. -/
def MeasuredCharacteristics.Deserialize (raw : QByteArray) : MeasuredCharacteristics :=
  let tmp := Qt.fromHex raw
  if tmp.length = 4 then
    let vlt := ValueFromRaw 2 tmp
    let tmp := Qt.removeFront tmp 2
    let curr := ValueFromRaw 2 tmp
    { vlt := vlt, curr := curr }
  else { vlt := 0, curr := 0 }

/-! ## Request builders -/

/-- The method `DeviceDriver::CreatePingMessage`. -/
def CreatePingMessage : QByteArray :=
  Qt.toUpper (Codes.kMasterSlave ++ Codes.kPing ++ Codes.kCRLF)

/-- The method `DeviceDriver::CreateReadCountersMessage`. -/
def CreateReadCountersMessage : QByteArray :=
  Qt.toUpper (Codes.kMasterSlave ++ AppendCrc Codes.kReadCounters ++ Codes.kCRLF)

/-- The method `DeviceDriver::CreateReadParametersMessage`. -/
def CreateReadParametersMessage : QByteArray :=
  Qt.toUpper (Codes.kMasterSlave ++ AppendCrc Codes.kReadParameters ++ Codes.kCRLF)

/-- The method `DeviceDriver::CreateSingleCycleMessage`. -/
def CreateSingleCycleMessage : QByteArray :=
  Qt.toUpper (Codes.kMasterSlave ++ AppendCrc Codes.kSingleCycle ++ Codes.kCRLF)

/-- The method `DeviceDriver::CreateWriteCountersMessage`. -/
def CreateWriteCountersMessage (counters : Counters) : QByteArray :=
  Qt.toUpper (Codes.kMasterSlave
    ++ AppendCrc (Codes.kWriteCounters ++ Counters.Serialize counters) ++ Codes.kCRLF)

/-- The method `DeviceDriver::CreateWriteParametersMessage`. -/
def CreateWriteParametersMessage (parameters : Parameters) : QByteArray :=
  Qt.toUpper (Codes.kMasterSlave
    ++ AppendCrc (Codes.kWriteParameters ++ Parameters.Serialize parameters) ++ Codes.kCRLF)

/-! ## Driver state as seen by the window (`device-driver.h`) -/

/-- The enum `DeviceDriver::EventCode`. -/
inductive EventCode where
  | ReadCountersSuccess
  | ReadCountersError
  | WriteCountersSuccess
  | WriteCountersError
  | ReadParametersSuccess
  | ReadParametersError
  | WriteParametersSuccess
  | WriteParametersError
  | LaunchSingleCycleSuccess
  | LaunchSingleCycleError
  | DeviceNotFound
  | DeviceFound
  | DeviceDisconnected
deriving DecidableEq, Repr

/-- The data members of `DeviceDriver`. The serial port pointer is `none` for `nullptr`
and `some n` for a port object created for the `n`-th candidate port. -/
structure DeviceDriver where
  _connected : Bool
  _counters : Counters
  _parameters : Parameters
  _characteristics : MeasuredCharacteristics
  _serial_port : Option Nat
deriving DecidableEq, Repr

/-- The driver after its constructor: not connected, zeroed snapshots, no port. -/
def DeviceDriver.init : DeviceDriver :=
  { _connected := false
    _counters := { time := 0, cycles := 0 }
    _parameters := { cpm := 0, tp := 0, tbc := 0, tbtp := 0, ct := 0, tw := 0 }
    _characteristics := { vlt := 0, curr := 0 }
    _serial_port := none }

/-- The method `DeviceDriver::GetCounters`. -/
def DeviceDriver.GetCounters (d : DeviceDriver) : Counters := d._counters

/-- The method `DeviceDriver::GetParameters`. -/
def DeviceDriver.GetParameters (d : DeviceDriver) : Parameters := d._parameters

/-- The method `DeviceDriver::GetCharacteristics`. -/
def DeviceDriver.GetCharacteristics (d : DeviceDriver) : MeasuredCharacteristics :=
  d._characteristics

/-- The method `DeviceDriver::IsConnected`. -/
def DeviceDriver.IsConnected (d : DeviceDriver) : Bool := d._connected

/-! ## Session (`mainwindow.cpp`) -/

/-- The enum `MainWindow::State`. -/
inductive State where
  | Initial
  | Connect
  | Ready
  | ReadCounters
  | WriteCounters
  | ReadParameters
  | WriteParameters
  | LaunchSingleCycle
deriving DecidableEq, Repr

/-- The signals of `MainWindow` that are connected to slots of the driver. -/
inductive Signal where
  | ReadCounters
  | WriteCounters (counters : Counters)
  | ReadParameters
  | WriteParameters (parameters : Parameters)
  | LaunchSingleCycle
  | FindDevice
deriving DecidableEq, Repr

/-- The texts passed to `ShowLoading`. -/
inductive LoadText where
  | SearchDevice
  | Reconnect
  | ReadCounters
  | ReadParameters
  | SingleCycle
  | SendParameters
  | SendCounters
deriving DecidableEq, Repr

/-- The texts passed to `ShowInfo`; the text after a successful single cycle carries the
two measured values. -/
inductive InfoText where
  | Disconnected
  | DeviceNotFound
  | ReadCountersError
  | ReadParametersError
  | Success
  | WriteCountersError
  | WriteParametersError
  | LaunchSuccess (curr vlt : Nat)
  | LaunchError
deriving DecidableEq, Repr

/-- The lines passed to the signal `Trace` by `MainWindow::Event`. -/
inductive TraceLine where
  | RetryConnect (number : Nat)
  | EventName (code : EventCode)
deriving DecidableEq, Repr

/-- The body widget that is visible. -/
inductive Screen where
  | Initial
  | Info (text : InfoText)
  | Loading (text : LoadText)
  | About
  | Process
deriving DecidableEq, Repr

/-- The data members of `MainWindow` that the session logic uses, the function-local
static `retry_read_number` of `MainWindow::Event`, and the observable effects: the
visible widget, whether the two main buttons are enabled, the signals emitted to the
driver and the trace lines (oldest first), and the number of `RefreshWindow` single-shot
timers started by `ShowInfo` and not yet fired. -/
structure MainWindow where
  current_state : State
  retry_read_number : Nat
  tmp_counters : Counters
  tmp_parameters : Parameters
  local_counters : Counters
  local_parameters : Parameters
  local_characteristics : MeasuredCharacteristics
  admin_mode : Bool
  screen : Screen
  buttons_enabled : Bool
  emitted : List Signal
  traced : List TraceLine
  refresh_timers : Nat
deriving DecidableEq, Repr

/-- The constant `kMaxRetryReadNumber` of `MainWindow::Event`. -/
def kMaxRetryReadNumber : Nat := 2

namespace MainWindow

/-- The window after its constructor: state `Initial`, zeroed local values, the initial
screen (`ShowInitial`), nothing emitted. -/
def init : MainWindow :=
  { current_state := State.Initial
    retry_read_number := 0
    tmp_counters := { time := 0, cycles := 0 }
    tmp_parameters := { cpm := 0, tp := 0, tbc := 0, tbtp := 0, ct := 0, tw := 0 }
    local_counters := { time := 0, cycles := 0 }
    local_parameters := { cpm := 0, tp := 0, tbc := 0, tbtp := 0, ct := 0, tw := 0 }
    local_characteristics := { vlt := 0, curr := 0 }
    admin_mode := false
    screen := Screen.Initial
    buttons_enabled := true
    emitted := []
    traced := []
    refresh_timers := 0 }

/-- An `emit` of a signal connected to the driver. -/
def emit (w : MainWindow) (s : Signal) : MainWindow := { w with emitted := w.emitted ++ [s] }

/-- An `emit Trace(...)`. -/
def Trace (w : MainWindow) (t : TraceLine) : MainWindow := { w with traced := w.traced ++ [t] }

/-- The method `MainWindow::ShowInitial`. -/
def ShowInitial (w : MainWindow) : MainWindow :=
  { w with buttons_enabled := true, screen := Screen.Initial }

/-- The method `MainWindow::ShowInfo`: it also starts a single-shot timer for `RefreshWindow`. -/
def ShowInfo (w : MainWindow) (text : InfoText) : MainWindow :=
  { w with buttons_enabled := false, screen := Screen.Info text,
           refresh_timers := w.refresh_timers + 1 }

/-- The method `MainWindow::ShowLoading`. -/
def ShowLoading (w : MainWindow) (text : LoadText) : MainWindow :=
  { w with buttons_enabled := false, screen := Screen.Loading text }

/-- The method `MainWindow::ShowAbout`. -/
def ShowAbout (w : MainWindow) : MainWindow :=
  { w with buttons_enabled := true, screen := Screen.About }

/-- The method `MainWindow::ShowProcess`. -/
def ShowProcess (w : MainWindow) : MainWindow :=
  { w with buttons_enabled := true, screen := Screen.Process }

/-- The method `MainWindow::ReadValuesFromControls`; the values of the edit controls are
the arguments. -/
def ReadValuesFromControls (w : MainWindow) (counters : Counters) (parameters : Parameters) :
    MainWindow :=
  { w with tmp_counters := counters, tmp_parameters := parameters }

/-- The slot `MainWindow::RefreshWindow`. -/
def RefreshWindow (w : MainWindow) : MainWindow :=
  if w.current_state = State.Initial then w.ShowInitial
  else if w.current_state = State.Ready then w.ShowProcess
  else if w.current_state = State.ReadCounters then
    (w.ShowLoading LoadText.ReadCounters).emit Signal.ReadCounters
  else w

/-- A single-shot timer started by `ShowInfo` fires and runs `RefreshWindow`. -/
def TimerFired (w : MainWindow) : MainWindow :=
  if w.refresh_timers = 0 then w
  else RefreshWindow { w with refresh_timers := w.refresh_timers - 1 }

/-- The slot `MainWindow::ConnectButton`; `device_driver` is the driver as the window
sees it when the slot runs. -/
def ConnectButton (w : MainWindow) (device_driver : DeviceDriver) : MainWindow :=
  let w1 :=
    if !device_driver.IsConnected || w.current_state = State.Initial then
      ({ w.ShowLoading LoadText.SearchDevice with current_state := State.Connect }).emit
        Signal.FindDevice
    else w
  if w1.current_state = State.Ready then
    ({ w1.ShowLoading LoadText.ReadCounters with current_state := State.ReadCounters }).emit
      Signal.ReadCounters
  else w1

/-- The slot `MainWindow::SingleCycleButton`. -/
def SingleCycleButton (w : MainWindow) : MainWindow :=
  ({ w.ShowLoading LoadText.SingleCycle with current_state := State.LaunchSingleCycle }).emit
    Signal.LaunchSingleCycle

/-- The slot `MainWindow::WriteParametersButton`. -/
def WriteParametersButton (w : MainWindow) (counters : Counters) (parameters : Parameters) :
    MainWindow :=
  let w1 := w.ReadValuesFromControls counters parameters
  ({ w1.ShowLoading LoadText.SendParameters with current_state := State.WriteParameters }).emit
    (Signal.WriteParameters w1.tmp_parameters)

/-- The slot `MainWindow::WriteCountersButton`. -/
def WriteCountersButton (w : MainWindow) (counters : Counters) (parameters : Parameters) :
    MainWindow :=
  let w1 := w.ReadValuesFromControls counters parameters
  ({ w1.ShowLoading LoadText.SendCounters with current_state := State.WriteCounters }).emit
    (Signal.WriteCounters w1.tmp_counters)

/-- The retry branch shared by the three failure cases of `MainWindow::Event`:
below the limit the counter is incremented and discovery is re-issued, otherwise the
counter is reset, the state becomes `Initial` and `text` is shown. -/
def retryOrGiveUp (w : MainWindow) (text : InfoText) (code : EventCode) : MainWindow :=
  if w.retry_read_number < kMaxRetryReadNumber then
    let w1 := { w with retry_read_number := w.retry_read_number + 1 }
    let w2 := w1.Trace (TraceLine.RetryConnect w1.retry_read_number)
    let w3 := w2.ShowLoading LoadText.Reconnect
    ({ w3 with current_state := State.Connect }).emit Signal.FindDevice
  else
    let w1 := { w with retry_read_number := 0, current_state := State.Initial }
    (w1.ShowInfo text).Trace (TraceLine.EventName code)

/-- The slot `MainWindow::Event`; `device_driver` is the driver as the window sees it
when the slot runs (its snapshots are read through the getters). -/
def Event (w : MainWindow) (device_driver : DeviceDriver) (event : EventCode) : MainWindow :=
  if event = EventCode.DeviceDisconnected then
    { ({ w with current_state := State.Initial }).ShowInfo InfoText.Disconnected with
      retry_read_number := 0 }
  else
    match w.current_state with
    | State.Initial => w
    | State.Connect =>
      if event = EventCode.DeviceFound then
        let w1 := { w with retry_read_number := 0, current_state := State.ReadCounters }
        (w1.ShowLoading LoadText.ReadCounters).emit Signal.ReadCounters
      else if event = EventCode.DeviceNotFound then
        w.retryOrGiveUp InfoText.DeviceNotFound EventCode.DeviceNotFound
      else w
    | State.ReadCounters =>
      if event = EventCode.ReadCountersSuccess then
        let w1 := { w with retry_read_number := 0,
                           local_counters := device_driver.GetCounters,
                           current_state := State.ReadParameters }
        (w1.ShowLoading LoadText.ReadParameters).emit Signal.ReadParameters
      else if event = EventCode.ReadCountersError then
        w.retryOrGiveUp InfoText.ReadCountersError EventCode.ReadCountersError
      else w
    | State.ReadParameters =>
      if event = EventCode.ReadParametersSuccess then
        let w1 := { w with retry_read_number := 0,
                           local_parameters := device_driver.GetParameters,
                           current_state := State.Ready }
        w1.ShowProcess
      else if event = EventCode.ReadParametersError then
        w.retryOrGiveUp InfoText.ReadParametersError EventCode.ReadParametersError
      else w
    | State.WriteCounters =>
      if event = EventCode.WriteCountersSuccess then
        ({ w with current_state := State.ReadCounters }).ShowInfo InfoText.Success
      else if event = EventCode.WriteCountersError then
        (({ w with current_state := State.Ready }).ShowInfo InfoText.WriteCountersError).Trace
          (TraceLine.EventName EventCode.WriteCountersError)
      else w
    | State.WriteParameters =>
      if event = EventCode.WriteParametersSuccess then
        ({ w with current_state := State.ReadCounters }).ShowInfo InfoText.Success
      else if event = EventCode.WriteParametersError then
        (({ w with current_state := State.Ready }).ShowInfo InfoText.WriteParametersError).Trace
          (TraceLine.EventName EventCode.WriteCountersError)
      else w
    | State.LaunchSingleCycle =>
      if event = EventCode.LaunchSingleCycleSuccess then
        let w1 := { w with local_characteristics := device_driver.GetCharacteristics,
                           current_state := State.Ready }
        w1.ShowInfo
          (InfoText.LaunchSuccess w1.local_characteristics.curr w1.local_characteristics.vlt)
      else if event = EventCode.LaunchSingleCycleError then
        (({ w with current_state := State.Ready }).ShowInfo InfoText.LaunchError).Trace
          (TraceLine.EventName EventCode.LaunchSingleCycleError)
      else w
    | State.Ready => w

/-- Delivery of a sequence of driver events to `MainWindow::Event`, each paired with
the driver as the window sees it at that moment. -/
def Events (w : MainWindow) : List (DeviceDriver × EventCode) → MainWindow
  | [] => w
  | (device_driver, event) :: rest => Events (w.Event device_driver event) rest

/-- The event sequence `DeviceFound, ReadCountersError` repeated `n` times. -/
def foundThenReadError (device_driver : DeviceDriver) : Nat → List (DeviceDriver × EventCode)
  | 0 => []
  | n + 1 =>
    (device_driver, EventCode.DeviceFound) :: (device_driver, EventCode.ReadCountersError)
      :: foundThenReadError device_driver n

/-- The number of `FindDevice` signals emitted so far. -/
def findDeviceCount (w : MainWindow) : Nat := w.emitted.count Signal.FindDevice

/-- The retry counter is non-zero only in state `Connect`, and neither of the two
"read failed" information texts is shown. -/
def ReadGiveUpUnreached (w : MainWindow) : Prop :=
  (w.retry_read_number ≠ 0 → w.current_state = State.Connect)
  ∧ w.screen ≠ Screen.Info InfoText.ReadCountersError
  ∧ w.screen ≠ Screen.Info InfoText.ReadParametersError

end MainWindow

/-! ## Specification-side definitions -/

/-- Follows the specification ("fixed-width little-endian raw byte sequence"): the
`width` bytes of `value`, least significant first. -/
def leBytes (width value : Nat) : List Nat :=
  (List.range width).map fun i => value / 256 ^ i % 256

/-- Follows the specification: the upper-case hex character of a nibble. -/
def specUpperHexChar (n : Nat) : Nat :=
  if n < 10 then 0x30 + n else 0x41 + (n - 10)

/-- Follows the specification: a byte "re-encoded as 2 upper-case hex characters". -/
def specUpperHex (b : Nat) : QByteArray :=
  [specUpperHexChar (b / 16), specUpperHexChar (b % 16)]

/-- Follows the specification: one of the 8 rounds of the checksum, "if the high bit is
set, shift left and XOR with the polynomial; otherwise shift left", modulo 256. -/
def specCrcRound (x : Nat) : Nat :=
  if x.testBit 7 then ((x <<< 1) ^^^ 0x31) % 256 else (x <<< 1) % 256

/-- Follows the specification: CRC-8 with polynomial `0x31` and initial value `0xFF` over
a sequence of decoded bytes: "for each input byte, XOR into the running value, then
repeat 8 times" the round. -/
def specCrc8 (bytes : List Nat) : Nat :=
  bytes.foldl (fun crc b => specCrcRound^[8] ((crc ^^^ b) % 256)) 0xFF

/-- A byte is a lower-case ASCII letter. -/
def isLowerCaseLetter (ch : Nat) : Prop := 0x61 ≤ ch ∧ ch ≤ 0x7A

/-! ## Auxiliary definitions used in statements and proofs -/

/-- The byte array `data` with bit number `bit` of the byte at index `pos` inverted. -/
def flipBit (data : QByteArray) (pos bit : Nat) : QByteArray :=
  data.set pos (data.getD pos 0 ^^^ 2 ^ bit)

/-- The inverse on bytes of one round of `CRC8IN` (used to show the round injective). -/
def CRC8IN_unround (y : Nat) : Nat :=
  if y % 2 = 1 then (y ^^^ 0x31) / 2 + 128 else y / 2

/-! ## Driver operations (`device-driver.cpp`)

The `Trace` signal (diagnostic text) of the driver is not modelled. Each operation
returns the event it emits. -/

/-- What the driver does to `QSerialPort` objects; a port is named by the number of the
`QSerialPortInfo` it was created for. -/
inductive PortAction where
  | Create (info : Nat)
  | Open (info : Nat) (ok : Bool)
  | Write (info : Nat) (data : QByteArray)
  | Close (info : Nat)
  | Delete (info : Nat)
deriving DecidableEq, Repr

/-- The driver together with the `QSerialPort` object its pointer `_serial_port` refers
to: `port_is_open` is `_serial_port->isOpen()`, and `actions` lists what was done to port
objects so far, oldest first. -/
structure Transport where
  driver : DeviceDriver
  port_is_open : Bool
  actions : List PortAction
deriving DecidableEq, Repr

/-- What the port does during one blocking exchange: the results of
`waitForBytesWritten(2000)` and `waitForReadyRead(2000)` and the bytes returned by
`readAll()`. -/
structure PortReply where
  bytesWritten : Bool
  readyRead : Bool
  data : QByteArray
deriving DecidableEq, Repr

/-- One entry of `QSerialPortInfo::availablePorts()` together with how that port behaves
during the handshake: whether `open(ReadWrite)` succeeds and what the exchange yields. -/
structure Candidate where
  info : Nat
  openOk : Bool
  reply : PortReply
deriving DecidableEq, Repr

namespace Transport

/-- The driver after its constructor, with no port object. -/
def init : Transport := { driver := DeviceDriver.init, port_is_open := false, actions := [] }

/-- The three snapshots of the driver. -/
def snapshots (t : Transport) : Counters × Parameters × MeasuredCharacteristics :=
  (t.driver._counters, t.driver._parameters, t.driver._characteristics)

/-- The pointer `_serial_port` is non-null whenever `_connected` is set, so that the
operations never dereference a null pointer. -/
def PortHeld (t : Transport) : Prop :=
  t.driver._connected = true → t.driver._serial_port.isSome = true

/-- A call of `_serial_port->write(data)`. -/
def write (t : Transport) (info : Nat) (data : QByteArray) : Transport :=
  { t with actions := t.actions ++ [PortAction.Write info data] }

/-- The method `DeviceDriver::WaitReadyRead`. -/
def WaitReadyRead (t : Transport) (r : PortReply) : Bool :=
  t.driver._serial_port.isSome && r.bytesWritten && r.readyRead

/-- The method `DeviceDriver::CloseSerialPort`. -/
def CloseSerialPort (t : Transport) : Transport :=
  let t1 := { t with driver := { t.driver with _connected := false } }
  match t1.driver._serial_port with
  | none => t1
  | some info =>
    let t2 :=
      if t1.port_is_open then
        { t1 with port_is_open := false, actions := t1.actions ++ [PortAction.Close info] }
      else t1
    { t2 with driver := { t2.driver with _serial_port := none },
              actions := t2.actions ++ [PortAction.Delete info] }

/-- The slot `DeviceDriver::ReadCounters`; `none` stands for the dereference of a null
`_serial_port`. -/
def ReadCounters (t : Transport) (r : PortReply) : Option (Transport × EventCode) :=
  if t.driver._connected then
    match t.driver._serial_port with
    | none => none
    | some info =>
      let t1 := t.write info CreateReadCountersMessage
      if t1.WaitReadyRead r
          && Qt.startsWith r.data (Codes.kSlaveMaster ++ Codes.kReadCounters)
          && CheckCrc r.data then
        some ({ t1 with driver := { t1.driver with
                  _counters := Counters.Deserialize (ExtractData r.data) } },
              EventCode.ReadCountersSuccess)
      else some (t1.CloseSerialPort, EventCode.ReadCountersError)
  else some (t.CloseSerialPort, EventCode.ReadCountersError)

/-- The slot `DeviceDriver::WriteCounters`. -/
def WriteCounters (t : Transport) (counters : Counters) (r : PortReply) :
    Option (Transport × EventCode) :=
  if t.driver._connected then
    match t.driver._serial_port with
    | none => none
    | some info =>
      let t1 := t.write info (CreateWriteCountersMessage counters)
      if t1.WaitReadyRead r
          && Qt.startsWith r.data (Codes.kSlaveMaster ++ Codes.kWriteCounters)
          && CheckCrc r.data then
        some (t1, EventCode.WriteCountersSuccess)
      else some (t1.CloseSerialPort, EventCode.WriteCountersError)
  else some (t.CloseSerialPort, EventCode.WriteCountersError)

/-- The slot `DeviceDriver::ReadParameters`. -/
def ReadParameters (t : Transport) (r : PortReply) : Option (Transport × EventCode) :=
  if t.driver._connected then
    match t.driver._serial_port with
    | none => none
    | some info =>
      let t1 := t.write info CreateReadParametersMessage
      if t1.WaitReadyRead r
          && Qt.startsWith r.data (Codes.kSlaveMaster ++ Codes.kReadParameters)
          && CheckCrc r.data then
        some ({ t1 with driver := { t1.driver with
                  _parameters := Parameters.Deserialize (ExtractData r.data) } },
              EventCode.ReadParametersSuccess)
      else some (t1.CloseSerialPort, EventCode.ReadParametersError)
  else some (t.CloseSerialPort, EventCode.ReadParametersError)

/-- The slot `DeviceDriver::WriteParameters`. -/
def WriteParameters (t : Transport) (parameters : Parameters) (r : PortReply) :
    Option (Transport × EventCode) :=
  if t.driver._connected then
    match t.driver._serial_port with
    | none => none
    | some info =>
      let t1 := t.write info (CreateWriteParametersMessage parameters)
      if t1.WaitReadyRead r
          && Qt.startsWith r.data (Codes.kSlaveMaster ++ Codes.kWriteParameters)
          && CheckCrc r.data then
        some (t1, EventCode.WriteParametersSuccess)
      else some (t1.CloseSerialPort, EventCode.WriteParametersError)
  else some (t.CloseSerialPort, EventCode.WriteParametersError)

/-- The slot `DeviceDriver::LaunchSingleCycle`. -/
def LaunchSingleCycle (t : Transport) (r : PortReply) : Option (Transport × EventCode) :=
  if t.driver._connected then
    match t.driver._serial_port with
    | none => none
    | some info =>
      let t1 := t.write info CreateSingleCycleMessage
      if t1.WaitReadyRead r
          && Qt.startsWith r.data (Codes.kSlaveMaster ++ Codes.kSingleCycle)
          && CheckCrc r.data then
        some ({ t1 with driver := { t1.driver with
                  _characteristics := MeasuredCharacteristics.Deserialize (ExtractData r.data) } },
              EventCode.LaunchSingleCycleSuccess)
      else some (t1.CloseSerialPort, EventCode.LaunchSingleCycleError)
  else some (t.CloseSerialPort, EventCode.LaunchSingleCycleError)

/-- The method `DeviceDriver::CheckSerialPort`: the new state and the returned flag. -/
def CheckSerialPort (t : Transport) (c : Candidate) : Transport × Bool :=
  match t.driver._serial_port with
  | none =>
    let t1 := { t with driver := { t.driver with _serial_port := some c.info },
                       port_is_open := false,
                       actions := t.actions ++ [PortAction.Create c.info] }
    let t2 := { t1 with port_is_open := c.openOk,
                        actions := t1.actions ++ [PortAction.Open c.info c.openOk] }
    if c.openOk then
      let t3 := t2.write c.info CreatePingMessage
      if t3.WaitReadyRead c.reply
          && Qt.startsWith c.reply.data (Codes.kSlaveMaster ++ Codes.kPing) then
        (t3, true)
      else (t3.CloseSerialPort, false)
    else (t2.CloseSerialPort, false)
  | some _ => (t.CloseSerialPort, false)

/-- The loop of `DeviceDriver::FindDevice` over the available ports. -/
def FindDevice_loop (t : Transport) : List Candidate → Transport
  | [] => t
  | port :: rest =>
    if (t.CheckSerialPort port).2 then
      { (t.CheckSerialPort port).1 with
        driver := { (t.CheckSerialPort port).1.driver with _connected := true } }
    else FindDevice_loop (t.CheckSerialPort port).1 rest

/-- The slot `DeviceDriver::FindDevice`; `available_ports` is the result of
`QSerialPortInfo::availablePorts()`. -/
def FindDevice (t : Transport) (available_ports : List Candidate) : Transport × EventCode :=
  let t1 := t.FindDevice_loop available_ports
  if t1.driver._connected then (t1, EventCode.DeviceFound)
  else (t1, EventCode.DeviceNotFound)

end Transport

namespace Transport

/-- A connected driver that holds the open port `info`, with zeroed snapshots. -/
def holding (info : Nat) : Transport :=
  { driver := { DeviceDriver.init with _connected := true, _serial_port := some info }
    port_is_open := true
    actions := [] }

end Transport

/-- The reply `$20` + `0A000000F4010000` + `B9` + CRLF to a read-counters request,
arriving in time. -/
def countersReply : PortReply :=
  { bytesWritten := true, readyRead := true
    data := ascii "$200A000000F4010000B9" ++ Codes.kCRLF }

/-- An exchange in which the request is flushed but no reply arrives in time. -/
def noReply : PortReply := { bytesWritten := true, readyRead := false, data := [] }

/-! ## Lemmas on the Qt model -/

theorem toUpperByte_idem (ch : Nat) : Qt.toUpperByte (Qt.toUpperByte ch) = Qt.toUpperByte ch := by
  unfold Qt.toUpperByte
  split_ifs <;> omega

theorem toUpper_idem (d : QByteArray) : Qt.toUpper (Qt.toUpper d) = Qt.toUpper d := by
  simp [Qt.toUpper, toUpperByte_idem]

theorem toUpper_append (a b : QByteArray) :
    Qt.toUpper (a ++ b) = Qt.toUpper a ++ Qt.toUpper b := by
  simp [Qt.toUpper]

theorem toUpper_length (d : QByteArray) : (Qt.toUpper d).length = d.length := by
  simp [Qt.toUpper]

theorem fromHexDigit_toUpperByte (ch : Nat) :
    Qt.fromHexDigit (Qt.toUpperByte ch) = Qt.fromHexDigit ch := by
  unfold Qt.fromHexDigit Qt.toUpperByte
  split_ifs <;> first | omega | (simp only [Option.some.injEq]; omega) | rfl

theorem fromHexStep_toUpperByte (ch : Nat) :
    Qt.fromHexStep (Qt.toUpperByte ch) = Qt.fromHexStep ch := by
  funext st
  simp [Qt.fromHexStep, fromHexDigit_toUpperByte]

theorem fromHex_toUpper (d : QByteArray) : Qt.fromHex (Qt.toUpper d) = Qt.fromHex d := by
  unfold Qt.fromHex Qt.toUpper
  rw [List.foldr_map]
  simp only [fromHexStep_toUpperByte]

theorem toHex_length (d : QByteArray) : (Qt.toHex d).length = 2 * d.length := by
  induction d with
  | nil => rfl
  | cons b bs ih => simp [Qt.toHex, List.flatMap_cons] at ih ⊢; omega

theorem toHex_append (a b : QByteArray) : Qt.toHex (a ++ b) = Qt.toHex a ++ Qt.toHex b := by
  simp [Qt.toHex]

theorem CalculateCrc_toUpper (d : QByteArray) : CalculateCrc (Qt.toUpper d) = CalculateCrc d := by
  simp [CalculateCrc, fromHex_toUpper]

theorem toUpper_CalculateCrc (d : QByteArray) : Qt.toUpper (CalculateCrc d) = CalculateCrc d := by
  simp [CalculateCrc, toUpper_idem]

theorem CalculateCrc_length (d : QByteArray) : (CalculateCrc d).length = 2 := by
  simp [CalculateCrc, toUpper_length, toHex_length]

theorem mid_eq (data : QByteArray) (p l : Nat) (hp : p ≤ data.length)
    (hl : l < 2 ^ 31) (hs : data.length < 2 ^ 31) :
    Qt.mid data p l = (data.drop p).take l := by
  unfold Qt.mid Qt.toUInt
  simp only []
  rw [if_neg (by omega), if_neg (by omega)]
  split_ifs with h
  · have h1 : (((data.length : Int) - (p : Int))).toNat = data.length - p := by omega
    rw [h1]
    have h2 : data.length - p ≤ l := by omega
    rw [Int.toNat_ofNat]
    rw [List.take_of_length_le (by simp only [List.length_drop]; omega),
      List.take_of_length_le (by simp only [List.length_drop]; omega)]
  · simp

theorem kMessageLength_eq (data : QByteArray) (i : Nat) (hi : i ≤ 3)
    (hs : data.length < 2 ^ 31) :
    kMessageLength data i = (data.length : Int) - i - 4 := by
  unfold kMessageLength Qt.toInt Qt.toUInt Codes.kCRLF
  simp only [List.length_cons, List.length_nil]
  split_ifs <;> omega


theorem ExtractBody_frame (m : Nat) (B K : QByteArray) (hK : K.length = 2)
    (hs : B.length + 5 < 2 ^ 31) :
    ExtractBody (m :: (B ++ K ++ Codes.kCRLF)) = B := by
  have hlen : (m :: (B ++ K ++ Codes.kCRLF)).length = B.length + 5 := by
    simp [Codes.kCRLF, hK]
  unfold ExtractBody
  rw [kMessageLength_eq _ 1 (by omega) (by omega), hlen]
  split_ifs with h
  · have e : ((B.length + 5 : Nat) : Int) - (1 : Nat) - 4 = (B.length : Nat) := by omega
    rw [e, show (1 : Int) = ((1 : Nat) : Int) from rfl, mid_eq _ _ _ (by omega) (by omega) (by omega)]
    simp
  · have : B.length = 0 := by omega
    simp [List.length_eq_zero.mp this]

theorem ExtractCrc_frame (m : Nat) (B K : QByteArray) (hK : K.length = 2) (hB : B ≠ [])
    (hs : B.length + 5 < 2 ^ 31) :
    ExtractCrc (m :: (B ++ K ++ Codes.kCRLF)) = K := by
  have hlen : (m :: (B ++ K ++ Codes.kCRLF)).length = B.length + 5 := by
    simp [Codes.kCRLF, hK]
  have hpos : 0 < B.length := List.length_pos.mpr hB
  unfold ExtractCrc
  simp only []
  rw [kMessageLength_eq _ 1 (by omega) (by omega), hlen]
  rw [if_pos (by omega)]
  have e : Qt.toInt (Qt.toUInt (1 + (((B.length + 5 : Nat) : Int) - (1 : Nat) - 4)))
      = ((B.length + 1 : Nat) : Int) := by
    unfold Qt.toInt Qt.toUInt
    split_ifs <;> omega
  rw [e, show (2 : Int) = ((2 : Nat) : Int) from rfl, mid_eq _ _ _ (by omega) (by omega) (by omega)]
  simp [List.drop_append, hK, List.take_append]

theorem ExtractData_frame (m : Nat) (op P K : QByteArray) (hop : op.length = 2)
    (hK : K.length = 2) (hs : P.length + 7 < 2 ^ 31) :
    ExtractData (m :: (op ++ P ++ K ++ Codes.kCRLF)) = P := by
  have hlen : (m :: (op ++ P ++ K ++ Codes.kCRLF)).length = P.length + 7 := by
    simp [Codes.kCRLF, hK, hop]; omega
  unfold ExtractData
  rw [kMessageLength_eq _ 3 (by omega) (by omega), hlen]
  split_ifs with h
  · have e : ((P.length + 7 : Nat) : Int) - (3 : Nat) - 4 = (P.length : Nat) := by omega
    rw [e, show (3 : Int) = ((3 : Nat) : Int) from rfl, mid_eq _ _ _ (by omega) (by omega) (by omega)]
    match op, hop with
    | [a, b], _ => simp
  · have : P.length = 0 := by omega
    simp [List.length_eq_zero.mp this]

theorem ValueToRaw_loop_length (bits : Nat) (n value : Nat) (result : QByteArray) :
    (ValueToRaw_loop bits n value result).length = result.length + n := by
  induction n generalizing value result with
  | zero => rfl
  | succ n ih => rw [ValueToRaw_loop, ih]; simp; omega

theorem ValueToRaw_length (kSize value : Nat) : (ValueToRaw kSize value).length = 2 * kSize := by
  simp [ValueToRaw, toHex_length, ValueToRaw_loop_length]

theorem Counters_Serialize_length (c : Counters) : (Counters.Serialize c).length = 16 := by
  simp [Counters.Serialize, ValueToRaw_length]

theorem Parameters_Serialize_length (p : Parameters) : (Parameters.Serialize p).length = 22 := by
  simp [Parameters.Serialize, ValueToRaw_length]

/-- The shape of a built request: marker, upper-cased body, checksum, terminator. -/
theorem build_shape (body : QByteArray) :
    Qt.toUpper (Codes.kMasterSlave ++ AppendCrc body ++ Codes.kCRLF)
      = 0x40 :: (Qt.toUpper body ++ CalculateCrc body ++ Codes.kCRLF) := by
  simp only [AppendCrc, toUpper_append, toUpper_CalculateCrc]
  simp [Qt.toUpper, Codes.kMasterSlave, Codes.kCRLF, Qt.toUpperByte]

/-- A frame built around a non-empty body passes the checksum validation. -/
theorem CheckCrc_build (body : QByteArray) (hne : body ≠ []) (hs : body.length + 5 < 2 ^ 31) :
    CheckCrc (Qt.toUpper (Codes.kMasterSlave ++ AppendCrc body ++ Codes.kCRLF)) = true := by
  have hne1 : Qt.toUpper body ≠ [] := by
    intro h
    apply hne
    have := congrArg List.length h
    rw [toUpper_length] at this
    exact List.length_eq_zero.mp this
  have hpos : 0 < body.length := List.length_pos.mpr hne
  rw [build_shape]
  unfold CheckCrc
  simp only []
  rw [ExtractCrc_frame _ _ _ (CalculateCrc_length body) hne1 (by rw [toUpper_length]; exact hs),
    ExtractBody_frame _ _ _ (CalculateCrc_length body) (by rw [toUpper_length]; exact hs),
    CalculateCrc_toUpper]
  simp [CalculateCrc_length, toUpper_length]
  exact hne

/-- C1: every checksum-bearing request frame built by the driver (write counters, write
parameters, read counters, read parameters, single cycle) is accepted by `CheckCrc`,
for every `Counters` value and every `Parameters` value. -/
theorem C1_built_frames_pass_CheckCrc (c : Counters) (p : Parameters) :
    CheckCrc (CreateWriteCountersMessage c) = true
    ∧ CheckCrc (CreateWriteParametersMessage p) = true
    ∧ CheckCrc CreateReadCountersMessage = true
    ∧ CheckCrc CreateReadParametersMessage = true
    ∧ CheckCrc CreateSingleCycleMessage = true := by
  refine ⟨?_, ?_, ?_, ?_, ?_⟩
  · exact CheckCrc_build _ (by simp [Codes.kWriteCounters])
      (by simp [Codes.kWriteCounters, Counters_Serialize_length])
  · exact CheckCrc_build _ (by simp [Codes.kWriteParameters])
      (by simp [Codes.kWriteParameters, Parameters_Serialize_length])
  · exact CheckCrc_build _ (by simp [Codes.kReadCounters]) (by simp [Codes.kReadCounters])
  · exact CheckCrc_build _ (by simp [Codes.kReadParameters]) (by simp [Codes.kReadParameters])
  · exact CheckCrc_build _ (by simp [Codes.kSingleCycle]) (by simp [Codes.kSingleCycle])

/-- C6: for a raw reply `m ++ op ++ P ++ K ++ "\r\n"` with a one-byte marker, a two-character
opcode, a payload of `2 * N` characters and a two-character checksum (the whole reply
within the size range of a `QByteArray`), `ExtractBody` is `op ++ P` of length `2 + 2 * N`,
`ExtractData` is exactly `P` and `ExtractCrc` is exactly `K`, two characters long. -/
theorem C6_frame_extraction (m : Nat) (op P K : QByteArray) (N : Nat)
    (hop : op.length = 2) (hP : P.length = 2 * N) (hK : K.length = 2)
    (hsize : ([m] ++ op ++ P ++ K ++ Codes.kCRLF).length < 2 ^ 31) :
    ExtractBody ([m] ++ op ++ P ++ K ++ Codes.kCRLF) = op ++ P
    ∧ (ExtractBody ([m] ++ op ++ P ++ K ++ Codes.kCRLF)).length = 2 + 2 * N
    ∧ ExtractData ([m] ++ op ++ P ++ K ++ Codes.kCRLF) = P
    ∧ ExtractCrc ([m] ++ op ++ P ++ K ++ Codes.kCRLF) = K
    ∧ (ExtractCrc ([m] ++ op ++ P ++ K ++ Codes.kCRLF)).length = 2 := by
  have hlen : P.length + 7 < 2 ^ 31 := by
    simp [Codes.kCRLF, hop, hK] at hsize; omega
  have e1 : [m] ++ op ++ P ++ K ++ Codes.kCRLF = m :: ((op ++ P) ++ K ++ Codes.kCRLF) := by simp
  have e2 : [m] ++ op ++ P ++ K ++ Codes.kCRLF = m :: (op ++ P ++ K ++ Codes.kCRLF) := by simp
  have hne : op ++ P ≠ [] := by
    intro h
    have := congrArg List.length h
    simp [hop] at this
  have hb : ExtractBody ([m] ++ op ++ P ++ K ++ Codes.kCRLF) = op ++ P := by
    rw [e1]; exact ExtractBody_frame m (op ++ P) K hK (by simp [hop]; omega)
  have hc : ExtractCrc ([m] ++ op ++ P ++ K ++ Codes.kCRLF) = K := by
    rw [e1]; exact ExtractCrc_frame m (op ++ P) K hK hne (by simp [hop]; omega)
  refine ⟨hb, ?_, ?_, hc, ?_⟩
  · rw [hb]; simp [hop, hP]
  · rw [e2]; exact ExtractData_frame m op P K hop hK hlen
  · rw [hc]; exact hK

/-- C6 applied to the reply `$20` + `0A000000F4010000` + `BC` + CRLF. -/
theorem C6_frame_extraction_witness :
    ExtractBody ([0x24] ++ ascii "20" ++ ascii "0A000000F4010000" ++ ascii "BC" ++ Codes.kCRLF)
      = ascii "20" ++ ascii "0A000000F4010000"
    ∧ (ExtractBody ([0x24] ++ ascii "20" ++ ascii "0A000000F4010000" ++ ascii "BC"
        ++ Codes.kCRLF)).length = 2 + 2 * 8
    ∧ ExtractData ([0x24] ++ ascii "20" ++ ascii "0A000000F4010000" ++ ascii "BC" ++ Codes.kCRLF)
      = ascii "0A000000F4010000"
    ∧ ExtractCrc ([0x24] ++ ascii "20" ++ ascii "0A000000F4010000" ++ ascii "BC" ++ Codes.kCRLF)
      = ascii "BC"
    ∧ (ExtractCrc ([0x24] ++ ascii "20" ++ ascii "0A000000F4010000" ++ ascii "BC"
        ++ Codes.kCRLF)).length = 2 :=
  C6_frame_extraction 0x24 (ascii "20") (ascii "0A000000F4010000") (ascii "BC") 8
    (by decide) (by decide) (by decide) (by decide)

set_option maxRecDepth 100000 in
theorem hex_byte_facts : ∀ b < 256,
    Qt.fromHexDigit (Qt.toHexLower (b / 16)) = some (b / 16)
    ∧ Qt.fromHexDigit (Qt.toHexLower (b % 16)) = some (b % 16)
    ∧ (b % 16) ||| ((b / 16) <<< 4) = b := by
  decide

theorem fromHexState_toHex (bs acc : QByteArray) (h : ∀ b ∈ bs, b < 256) :
    List.foldr Qt.fromHexStep (true, acc) (Qt.toHex bs) = (true, bs ++ acc) := by
  induction bs with
  | nil => rfl
  | cons b bs ih =>
    have hb := hex_byte_facts b (h b (List.mem_cons_self _ _))
    have ih1 := ih (fun x hx => h x (List.mem_cons_of_mem _ hx))
    simp only [Qt.toHex, List.flatMap_cons, List.cons_append, List.nil_append, List.foldr_cons] at ih1 ⊢
    rw [ih1]
    simp [Qt.fromHexStep, hb.1, hb.2.1, hb.2.2]

theorem fromHex_toHex (bs : QByteArray) (h : ∀ b ∈ bs, b < 256) :
    Qt.fromHex (Qt.toHex bs) = bs := by
  unfold Qt.fromHex
  rw [fromHexState_toHex bs [] h]
  simp

theorem leBytes_four (v : Nat) :
    leBytes 4 v = [v % 256, v / 256 % 256, v / 65536 % 256, v / 16777216 % 256] := by
  simp [leBytes, List.range_succ]

theorem leBytes_two (v : Nat) : leBytes 2 v = [v % 256, v / 256 % 256] := by
  simp [leBytes, List.range_succ]

theorem leBytes_one (v : Nat) : leBytes 1 v = [v % 256] := by
  simp [leBytes, List.range_succ]

theorem leBytes_lt (w v : Nat) : ∀ b ∈ leBytes w v, b < 256 := by
  intro b hb
  simp only [leBytes, List.mem_map] at hb
  obtain ⟨i, _, rfl⟩ := hb
  exact Nat.mod_lt _ (by norm_num)

theorem and_255 (v : Nat) : v &&& 255 = v % 256 := Nat.and_pow_two_sub_one_eq_mod v 8

theorem ValueToRaw_four (v : Nat) : ValueToRaw 4 v = Qt.toHex (leBytes 4 v) := by
  simp only [ValueToRaw, ValueToRaw_loop, leBytes_four, Nat.shiftRight_eq_div_pow, and_255]
  congr 1
  simp
  omega

theorem ValueToRaw_two (v : Nat) : ValueToRaw 2 v = Qt.toHex (leBytes 2 v) := by
  simp only [ValueToRaw, ValueToRaw_loop, leBytes_two, Nat.shiftRight_eq_div_pow, and_255]
  congr 1
  simp
  omega

theorem ValueToRaw_one (v : Nat) : ValueToRaw 1 v = Qt.toHex (leBytes 1 v) := by
  simp only [ValueToRaw, ValueToRaw_loop, leBytes_one, Nat.shiftRight_eq_div_pow, and_255]
  congr 1
  simp
theorem Counters_Serialize_eq (c : Counters) :
    Counters.Serialize c = Qt.toHex (leBytes 4 c.cycles ++ leBytes 4 c.time) := by
  rw [Counters.Serialize, ValueToRaw_four, ValueToRaw_four, toHex_append]

theorem Parameters_Serialize_eq (p : Parameters) :
    Parameters.Serialize p = Qt.toHex (leBytes 2 p.cpm ++ leBytes 2 p.tp ++ leBytes 2 p.tbc
      ++ leBytes 2 p.tbtp ++ leBytes 1 p.ct ++ leBytes 2 p.tw) := by
  simp only [Parameters.Serialize, ValueToRaw_two, ValueToRaw_one, toHex_append]

theorem fromHex_Counters_Serialize (c : Counters) :
    Qt.fromHex (Counters.Serialize c) = leBytes 4 c.cycles ++ leBytes 4 c.time := by
  rw [Counters_Serialize_eq]
  apply fromHex_toHex
  intro b hb
  rcases List.mem_append.mp hb with h | h <;> exact leBytes_lt _ _ b h

theorem fromHex_Parameters_Serialize (p : Parameters) :
    Qt.fromHex (Parameters.Serialize p) = leBytes 2 p.cpm ++ leBytes 2 p.tp ++ leBytes 2 p.tbc
      ++ leBytes 2 p.tbtp ++ leBytes 1 p.ct ++ leBytes 2 p.tw := by
  rw [Parameters_Serialize_eq]
  apply fromHex_toHex
  intro b hb
  simp only [List.mem_append] at hb
  rcases hb with ((((h | h) | h) | h) | h) | h <;> exact leBytes_lt _ _ b h

/-- C8: the hex-decoding of `Counters::Serialize(c)` is exactly 8 bytes, the 4 little-endian
bytes of `cycles` followed by the 4 little-endian bytes of `time` (for `cycles = 10`,
`time = 500` the text is `0a000000f4010000`, upper-cased `0A000000F4010000`); the
hex-decoding of `Parameters::Serialize(p)` is exactly 11 bytes, the little-endian bytes of
`cpm` (2), `tp` (2), `tbc` (2), `tbtp` (2), `ct` (1), `tw` (2) in that order. -/
theorem C8_serialize_wire_layout (c : Counters) (p : Parameters) :
    Qt.fromHex (Counters.Serialize c) = leBytes 4 c.cycles ++ leBytes 4 c.time
    ∧ (Qt.fromHex (Counters.Serialize c)).length = 8
    ∧ Qt.toUpper (Counters.Serialize { cycles := 10, time := 500 }) = ascii "0A000000F4010000"
    ∧ Qt.fromHex (Parameters.Serialize p)
        = leBytes 2 p.cpm ++ leBytes 2 p.tp ++ leBytes 2 p.tbc ++ leBytes 2 p.tbtp
          ++ leBytes 1 p.ct ++ leBytes 2 p.tw
    ∧ (Qt.fromHex (Parameters.Serialize p)).length = 11 := by
  refine ⟨fromHex_Counters_Serialize c, ?_, by decide, fromHex_Parameters_Serialize p, ?_⟩
  · rw [fromHex_Counters_Serialize]; simp [leBytes]
  · rw [fromHex_Parameters_Serialize]; simp [leBytes]

theorem mid_zero (data : QByteArray) (l : Nat) (hl : l < 2 ^ 31) (hs : data.length < 2 ^ 31) :
    Qt.mid data 0 l = data.take l := by
  have := mid_eq data 0 l (Nat.zero_le _) hl hs
  simpa using this

theorem ValueFromRaw_four (b0 b1 b2 b3 : Nat) (rest : QByteArray)
    (h0 : b0 < 256) (h1 : b1 < 256) (h2 : b2 < 256) (h3 : b3 < 256)
    (hs : rest.length < 2 ^ 30) :
    ValueFromRaw 4 (b0 :: b1 :: b2 :: b3 :: rest)
      = b0 + 256 * b1 + 65536 * b2 + 16777216 * b3 := by
  unfold ValueFromRaw
  simp only []
  rw [if_pos (by simp), mid_zero _ 4 (by norm_num) (by simp; omega)]
  simp [Nat.shiftLeft_eq]
  omega

theorem ValueFromRaw_two (b0 b1 : Nat) (rest : QByteArray)
    (h0 : b0 < 256) (h1 : b1 < 256) (hs : rest.length < 2 ^ 30) :
    ValueFromRaw 2 (b0 :: b1 :: rest) = b0 + 256 * b1 := by
  unfold ValueFromRaw
  simp only []
  rw [if_pos (by simp), mid_zero _ 2 (by norm_num) (by simp; omega)]
  simp [Nat.shiftLeft_eq]
  omega

theorem ValueFromRaw_one (b0 : Nat) (rest : QByteArray)
    (h0 : b0 < 256) (hs : rest.length < 2 ^ 30) :
    ValueFromRaw 1 (b0 :: rest) = b0 := by
  unfold ValueFromRaw
  simp only []
  rw [if_pos (by simp), mid_zero _ 1 (by norm_num) (by simp; omega)]
  simp [Nat.shiftLeft_eq]
  omega

/-- C3: round trip. For every `Counters` value whose two fields are 32-bit,
`Counters::Deserialize(Counters::Serialize(c)) = c`; for every `Parameters` value whose
fields are 16-bit (`ct` 8-bit), `Parameters::Deserialize(Parameters::Serialize(p)) = p`. -/
theorem C3_serialize_round_trip (c : Counters) (p : Parameters)
    (hc : c.InRange) (hp : p.InRange) :
    Counters.Deserialize (Counters.Serialize c) = c
    ∧ Parameters.Deserialize (Parameters.Serialize p) = p := by
  obtain ⟨ht, hcy⟩ := hc
  obtain ⟨h1, h2, h3, h4, h5, h6⟩ := hp
  constructor
  · unfold Counters.Deserialize
    simp only [fromHex_Counters_Serialize, leBytes_four, Qt.removeFront]
    simp only [List.cons_append, List.nil_append, List.length_cons, List.length_nil,
      List.drop_succ_cons, List.drop_zero]
    rw [ValueFromRaw_four _ _ _ _ _ (by omega) (by omega) (by omega) (by omega) (by simp),
      ValueFromRaw_four _ _ _ _ _ (by omega) (by omega) (by omega) (by omega) (by simp)]
    cases c with
    | mk time cycles =>
      simp only [if_true, Counters.mk.injEq] at *
      constructor <;> omega
  · unfold Parameters.Deserialize
    simp only [fromHex_Parameters_Serialize, leBytes_two, leBytes_one, Qt.removeFront]
    simp only [List.cons_append, List.nil_append, List.length_cons, List.length_nil,
      List.drop_succ_cons, List.drop_zero]
    rw [ValueFromRaw_two _ _ _ (by omega) (by omega) (by simp),
      ValueFromRaw_two _ _ _ (by omega) (by omega) (by simp),
      ValueFromRaw_two _ _ _ (by omega) (by omega) (by simp),
      ValueFromRaw_two _ _ _ (by omega) (by omega) (by simp),
      ValueFromRaw_one _ _ (by omega) (by simp),
      ValueFromRaw_two _ _ _ (by omega) (by omega) (by simp)]
    cases p with
    | mk cpm tp tbc tbtp ct tw =>
      simp only [if_true, Parameters.mk.injEq] at *
      refine ⟨?_, ?_, ?_, ?_, ?_, ?_⟩ <;> omega
set_option maxRecDepth 100000 in
theorem CRC8IN_round_spec : ∀ x < 256,
    CRC8IN_round x = specCrcRound x ∧ CRC8IN_round x < 256 := by
  decide

theorem CRC8IN_loop_spec (n : Nat) : ∀ x < 256,
    CRC8IN_loop n x = specCrcRound^[n] x ∧ CRC8IN_loop n x < 256 := by
  induction n with
  | zero => intro x hx; exact ⟨rfl, hx⟩
  | succ n ih =>
    intro x hx
    have h := CRC8IN_round_spec x hx
    rw [CRC8IN_loop, Function.iterate_succ_apply, ← h.1]
    exact ih _ h.2

theorem CRC8IN_lt (c b : Nat) : CRC8IN c b < 256 :=
  (CRC8IN_loop_spec 8 _ (Nat.mod_lt _ (by norm_num))).2

theorem CRC8IN_eq_spec (c b : Nat) : CRC8IN c b = specCrcRound^[8] ((c ^^^ b) % 256) :=
  (CRC8IN_loop_spec 8 _ (Nat.mod_lt _ (by norm_num))).1

theorem foldl_CRC8IN_eq_spec (bytes : List Nat) : bytes.foldl CRC8IN 0xFF = specCrc8 bytes := by
  unfold specCrc8
  congr 1
  funext c b
  exact CRC8IN_eq_spec c b

theorem foldl_CRC8IN_lt (bytes : List Nat) (init : Nat) (h : init < 256) :
    bytes.foldl CRC8IN init < 256 := by
  induction bytes generalizing init with
  | nil => exact h
  | cons b bs ih => exact ih _ (CRC8IN_lt _ _)

set_option maxRecDepth 100000 in
theorem toUpper_toHex_byte : ∀ x < 256, Qt.toUpper (Qt.toHex [x]) = specUpperHex x := by
  decide

theorem CalculateCrc_eq_spec (data : QByteArray) :
    CalculateCrc data = specUpperHex (specCrc8 (Qt.fromHex data)) := by
  unfold CalculateCrc
  simp only []
  rw [toUpper_toHex_byte _ (foldl_CRC8IN_lt _ _ (by norm_num)), foldl_CRC8IN_eq_spec]

theorem fromHex_opcode_append (o1 o2 v1 v2 : Nat) (bs : QByteArray)
    (h1 : Qt.fromHexDigit o1 = some v1) (h2 : Qt.fromHexDigit o2 = some v2)
    (h : ∀ b ∈ bs, b < 256) :
    Qt.fromHex ([o1, o2] ++ Qt.toHex bs) = (v2 ||| (v1 <<< 4)) :: bs := by
  unfold Qt.fromHex
  rw [List.foldr_append, fromHexState_toHex bs [] h]
  simp [Qt.fromHexStep, h1, h2]

theorem Counters_bytes_lt (c : Counters) :
    ∀ b ∈ leBytes 4 c.cycles ++ leBytes 4 c.time, b < 256 := by
  intro b hb
  rcases List.mem_append.mp hb with h | h <;> exact leBytes_lt _ _ b h

theorem Parameters_bytes_lt (p : Parameters) :
    ∀ b ∈ leBytes 2 p.cpm ++ leBytes 2 p.tp ++ leBytes 2 p.tbc ++ leBytes 2 p.tbtp
      ++ leBytes 1 p.ct ++ leBytes 2 p.tw, b < 256 := by
  intro b hb
  simp only [List.mem_append] at hb
  rcases hb with ((((h | h) | h) | h) | h) | h <;> exact leBytes_lt _ _ b h

theorem toUpper_not_lower (d : QByteArray) : ∀ ch ∈ Qt.toUpper d, ¬ isLowerCaseLetter ch := by
  intro ch hch
  simp only [Qt.toUpper, List.mem_map] at hch
  obtain ⟨x, _, rfl⟩ := hch
  unfold isLowerCaseLetter Qt.toUpperByte
  split_ifs <;> omega

/-- C4: `CreateWriteCountersMessage(c)` is `@`, `2F`, the upper-cased hex text of
`Counters::Serialize(c)`, the two upper-case hex characters of the CRC-8 (initial value
`0xFF`, polynomial `0x31`) of the decoded bytes `0x2F` followed by the 8 body bytes, and
CRLF; `CreateWriteParametersMessage(p)` likewise with `3F` and the 11 body bytes; the
read-counters, read-parameters and single-cycle requests likewise with opcodes `20`, `30`,
`40` and an empty body; and no built frame (the ping included) contains a lower-case letter. -/
theorem C4_build_refines_spec (c : Counters) (p : Parameters) :
    CreateWriteCountersMessage c
        = ascii "@" ++ ascii "2F" ++ Qt.toUpper (Counters.Serialize c)
          ++ specUpperHex (specCrc8 (0x2F :: Qt.fromHex (Counters.Serialize c))) ++ Codes.kCRLF
    ∧ (Qt.fromHex (Counters.Serialize c)).length = 8
    ∧ CreateWriteParametersMessage p
        = ascii "@" ++ ascii "3F" ++ Qt.toUpper (Parameters.Serialize p)
          ++ specUpperHex (specCrc8 (0x3F :: Qt.fromHex (Parameters.Serialize p)))
          ++ Codes.kCRLF
    ∧ (Qt.fromHex (Parameters.Serialize p)).length = 11
    ∧ CreateReadCountersMessage
        = ascii "@" ++ ascii "20" ++ [] ++ specUpperHex (specCrc8 [0x20]) ++ Codes.kCRLF
    ∧ CreateReadParametersMessage
        = ascii "@" ++ ascii "30" ++ [] ++ specUpperHex (specCrc8 [0x30]) ++ Codes.kCRLF
    ∧ CreateSingleCycleMessage
        = ascii "@" ++ ascii "40" ++ [] ++ specUpperHex (specCrc8 [0x40]) ++ Codes.kCRLF
    ∧ (∀ ch ∈ CreateWriteCountersMessage c, ¬ isLowerCaseLetter ch)
    ∧ (∀ ch ∈ CreateWriteParametersMessage p, ¬ isLowerCaseLetter ch)
    ∧ (∀ ch ∈ CreateReadCountersMessage, ¬ isLowerCaseLetter ch)
    ∧ (∀ ch ∈ CreateReadParametersMessage, ¬ isLowerCaseLetter ch)
    ∧ (∀ ch ∈ CreateSingleCycleMessage, ¬ isLowerCaseLetter ch)
    ∧ (∀ ch ∈ CreatePingMessage, ¬ isLowerCaseLetter ch) := by
  have hc := fromHex_Counters_Serialize c
  have hp := fromHex_Parameters_Serialize p
  refine ⟨?_, ?_, ?_, ?_, by decide, by decide, by decide,
    toUpper_not_lower _, toUpper_not_lower _, toUpper_not_lower _, toUpper_not_lower _,
    toUpper_not_lower _, toUpper_not_lower _⟩
  · unfold CreateWriteCountersMessage
    rw [build_shape, CalculateCrc_eq_spec, toUpper_append]
    have e : Qt.fromHex (Codes.kWriteCounters ++ Counters.Serialize c)
        = 0x2F :: Qt.fromHex (Counters.Serialize c) := by
      rw [hc, Counters_Serialize_eq]
      exact fromHex_opcode_append 0x32 0x46 2 15 _ (by decide) (by decide) (Counters_bytes_lt c)
    rw [e]
    have u : Qt.toUpper Codes.kWriteCounters = ascii "2F" := by decide
    rw [u]
    simp [ascii]
  · rw [hc]; simp [leBytes]
  · unfold CreateWriteParametersMessage
    rw [build_shape, CalculateCrc_eq_spec, toUpper_append]
    have e : Qt.fromHex (Codes.kWriteParameters ++ Parameters.Serialize p)
        = 0x3F :: Qt.fromHex (Parameters.Serialize p) := by
      rw [hp, Parameters_Serialize_eq]
      exact fromHex_opcode_append 0x33 0x46 3 15 _ (by decide) (by decide) (Parameters_bytes_lt p)
    rw [e]
    have u : Qt.toUpper Codes.kWriteParameters = ascii "3F" := by decide
    rw [u]
    simp [ascii]
  · rw [hp]; simp [leBytes]
/-! ## Injectivity of the checksum -/

set_option maxRecDepth 100000 in
theorem CRC8IN_unround_round : ∀ x < 256, CRC8IN_unround (CRC8IN_round x) = x := by
  decide

theorem CRC8IN_round_lt (x : Nat) (hx : x < 256) : CRC8IN_round x < 256 :=
  (CRC8IN_round_spec x hx).2

theorem CRC8IN_loop_injective (n : Nat) (x y : Nat) (hx : x < 256) (hy : y < 256)
    (h : CRC8IN_loop n x = CRC8IN_loop n y) : x = y := by
  induction n generalizing x y with
  | zero => exact h
  | succ n ih =>
    rw [CRC8IN_loop, CRC8IN_loop] at h
    have := ih _ _ (CRC8IN_round_lt x hx) (CRC8IN_round_lt y hy) h
    rw [← CRC8IN_unround_round x hx, ← CRC8IN_unround_round y hy, this]

theorem xor_lt_256 (x y : Nat) (hx : x < 256) (hy : y < 256) : x ^^^ y < 256 :=
  Nat.xor_lt_two_pow (n := 8) hx hy

/-- The checksum step is injective in the running value. -/
theorem CRC8IN_injective_left (b x y : Nat) (hb : b < 256) (hx : x < 256) (hy : y < 256)
    (h : CRC8IN x b = CRC8IN y b) : x = y := by
  unfold CRC8IN at h
  have h1 := CRC8IN_loop_injective 8 _ _ (Nat.mod_lt _ (by norm_num)) (Nat.mod_lt _ (by norm_num)) h
  rw [Nat.mod_eq_of_lt (xor_lt_256 _ _ hx hb), Nat.mod_eq_of_lt (xor_lt_256 _ _ hy hb)] at h1
  exact Nat.xor_left_injective h1

/-- The checksum step is injective in the input byte. -/
theorem CRC8IN_injective_right (c a b : Nat) (hc : c < 256) (ha : a < 256) (hb : b < 256)
    (h : CRC8IN c a = CRC8IN c b) : a = b := by
  unfold CRC8IN at h
  have h1 := CRC8IN_loop_injective 8 _ _ (Nat.mod_lt _ (by norm_num)) (Nat.mod_lt _ (by norm_num)) h
  rw [Nat.mod_eq_of_lt (xor_lt_256 _ _ hc ha), Nat.mod_eq_of_lt (xor_lt_256 _ _ hc hb)] at h1
  exact Nat.xor_right_injective h1

theorem foldl_CRC8IN_injective_init (suf : List Nat) (hs : ∀ b ∈ suf, b < 256)
    (x y : Nat) (hx : x < 256) (hy : y < 256)
    (h : suf.foldl CRC8IN x = suf.foldl CRC8IN y) : x = y := by
  induction suf generalizing x y with
  | nil => exact h
  | cons b bs ih =>
    have hb : b < 256 := hs b (List.mem_cons_self _ _)
    have := ih (fun z hz => hs z (List.mem_cons_of_mem _ hz)) _ _
      (CRC8IN_lt x b) (CRC8IN_lt y b) h
    exact CRC8IN_injective_left b x y hb hx hy this

/-- Two byte sequences that differ in one byte position have different checksums. -/
theorem foldl_CRC8IN_one_byte (pre suf : List Nat) (b b1 : Nat) (init : Nat)
    (hinit : init < 256) (hb : b < 256) (hb1 : b1 < 256) (hs : ∀ z ∈ suf, z < 256)
    (h : (pre ++ b :: suf).foldl CRC8IN init = (pre ++ b1 :: suf).foldl CRC8IN init) :
    b = b1 := by
  rw [List.foldl_append, List.foldl_append, List.foldl_cons, List.foldl_cons] at h
  have hp := foldl_CRC8IN_lt pre init hinit
  have := foldl_CRC8IN_injective_init suf hs _ _ (CRC8IN_lt _ _) (CRC8IN_lt _ _) h
  exact CRC8IN_injective_right _ b b1 hp hb hb1 this

theorem fromHex_specUpperHex (x : Nat) (hx : x < 256) : Qt.fromHex (specUpperHex x) = [x] := by
  rw [← toUpper_toHex_byte x hx, fromHex_toUpper]
  exact fromHex_toHex [x] (by simpa using hx)

theorem CalculateCrc_eq_iff (a b : QByteArray) :
    CalculateCrc a = CalculateCrc b
      ↔ (Qt.fromHex a).foldl CRC8IN 0xFF = (Qt.fromHex b).foldl CRC8IN 0xFF := by
  constructor
  · intro h
    rw [CalculateCrc_eq_spec, CalculateCrc_eq_spec] at h
    have h1 := congrArg Qt.fromHex h
    rw [← foldl_CRC8IN_eq_spec, ← foldl_CRC8IN_eq_spec,
      fromHex_specUpperHex _ (foldl_CRC8IN_lt _ _ (by norm_num)),
      fromHex_specUpperHex _ (foldl_CRC8IN_lt _ _ (by norm_num))] at h1
    simpa using h1
  · intro h
    unfold CalculateCrc
    simp only []
    rw [h]
/-! ## Changing one hex character of an encoded body -/

theorem toUpper_toHex_cons (b : Nat) (bs : QByteArray) :
    Qt.toUpper (Qt.toHex (b :: bs))
      = Qt.toUpperByte (Qt.toHexLower (b / 16)) :: Qt.toUpperByte (Qt.toHexLower (b % 16))
          :: Qt.toUpper (Qt.toHex bs) := by
  simp [Qt.toUpper, Qt.toHex]

theorem fromHexState_toUpper_toHex (bs acc : QByteArray) (h : ∀ b ∈ bs, b < 256) :
    List.foldr Qt.fromHexStep (true, acc) (Qt.toUpper (Qt.toHex bs)) = (true, bs ++ acc) := by
  unfold Qt.toUpper
  rw [List.foldr_map]
  simp only [fromHexStep_toUpperByte]
  exact fromHexState_toHex bs acc h

theorem fromHexDigit_lt (ch v : Nat) (h : Qt.fromHexDigit ch = some v) : v < 16 := by
  unfold Qt.fromHexDigit at h
  split_ifs at h <;> simp at h <;> omega

set_option maxRecDepth 100000 in
theorem nibble_or : ∀ x < 16, ∀ y < 16, x ||| (y <<< 4) = x + 16 * y := by
  decide

theorem fromHexState_set (bs : QByteArray) (hbs : ∀ b ∈ bs, b < 256) (acc : QByteArray)
    (j : Nat) (hj : j < 2 * bs.length) (ch v1 : Nat) (hv : Qt.fromHexDigit ch = some v1) :
    ∃ pre b suf b1 v, bs = pre ++ b :: suf ∧ b < 256 ∧ b1 < 256 ∧ (∀ z ∈ suf, z < 256)
      ∧ List.foldr Qt.fromHexStep (true, acc) ((Qt.toUpper (Qt.toHex bs)).set j ch)
          = (true, pre ++ b1 :: suf ++ acc)
      ∧ Qt.fromHexDigit ((Qt.toUpper (Qt.toHex bs)).getD j 0) = some v
      ∧ (b1 = b ↔ v1 = v) := by
  induction bs generalizing j with
  | nil => simp at hj
  | cons b rest ih =>
    have hb : b < 256 := hbs b (List.mem_cons_self _ _)
    have hrest : ∀ z ∈ rest, z < 256 := fun z hz => hbs z (List.mem_cons_of_mem _ hz)
    have hf := hex_byte_facts b hb
    have hv1 := fromHexDigit_lt ch v1 hv
    have hhi : b / 16 < 16 := by omega
    have hlo : b % 16 < 16 := by omega
    rw [toUpper_toHex_cons]
    match j, hj with
    | 0, _ =>
      refine ⟨[], b, rest, (b % 16) ||| (v1 <<< 4), b / 16, rfl, hb, ?_, hrest, ?_, ?_, ?_⟩
      · rw [nibble_or _ hlo _ hv1]; omega
      · simp only [List.set_cons_zero, List.foldr_cons, fromHexState_toUpper_toHex rest acc hrest]
        simp [Qt.fromHexStep, fromHexDigit_toUpperByte, hf.2.1, hv]
      · simp only [List.getD_cons_zero, fromHexDigit_toUpperByte, hf.1]
      · rw [nibble_or _ hlo _ hv1]; omega
    | 1, _ =>
      refine ⟨[], b, rest, v1 ||| ((b / 16) <<< 4), b % 16, rfl, hb, ?_, hrest, ?_, ?_, ?_⟩
      · rw [nibble_or _ hv1 _ hhi]; omega
      · simp only [List.set_cons_succ, List.set_cons_zero, List.foldr_cons,
          fromHexState_toUpper_toHex rest acc hrest]
        simp [Qt.fromHexStep, fromHexDigit_toUpperByte, hf.1, hv]
      · simp only [List.getD_cons_succ, List.getD_cons_zero, fromHexDigit_toUpperByte, hf.2.1]
      · rw [nibble_or _ hv1 _ hhi]; omega
    | j + 2, hj =>
      have hj1 : j < 2 * rest.length := by simp at hj; omega
      obtain ⟨pre, c, suf, c1, v, e, hc, hc1, hsuf, hfold, hget, hiff⟩ := ih hrest j hj1
      refine ⟨b :: pre, c, suf, c1, v, by rw [e]; rfl, hc, hc1, hsuf, ?_, ?_, hiff⟩
      · simp only [List.set_cons_succ, List.foldr_cons, hfold]
        simp [Qt.fromHexStep, fromHexDigit_toUpperByte, hf.1, hf.2.1, hf.2.2]
      · simpa only [List.getD_cons_succ] using hget
theorem CheckCrc_frame (m : Nat) (B K : QByteArray) (hK : K.length = 2) (hB : B ≠ [])
    (hs : B.length + 5 < 2 ^ 31) :
    CheckCrc (m :: (B ++ K ++ Codes.kCRLF)) = true ↔ CalculateCrc B = K := by
  have hpos : B.length ≠ 0 := fun h => hB (List.length_eq_zero.mp h)
  unfold CheckCrc
  simp only []
  rw [ExtractCrc_frame m B K hK hB hs, ExtractBody_frame m B K hK hs]
  simp [CalculateCrc_length, hK, hpos]

/-- Validation of a frame in which one character of the hex body was replaced by a hex
digit: the frame is accepted exactly when the digit has the value of the original one. -/
theorem CheckCrc_flip_body (bs : QByteArray) (hbs : ∀ b ∈ bs, b < 256)
    (hsize : 2 * bs.length + 5 < 2 ^ 31) (j : Nat) (hj : j < 2 * bs.length)
    (bit v1 : Nat)
    (hv : Qt.fromHexDigit
      ((0x40 :: (Qt.toUpper (Qt.toHex bs) ++ CalculateCrc (Qt.toUpper (Qt.toHex bs))
        ++ Codes.kCRLF)).getD (j + 1) 0 ^^^ 2 ^ bit) = some v1) :
    CheckCrc (flipBit (0x40 :: (Qt.toUpper (Qt.toHex bs)
        ++ CalculateCrc (Qt.toUpper (Qt.toHex bs)) ++ Codes.kCRLF)) (j + 1) bit) = true
      ↔ Qt.fromHexDigit ((0x40 :: (Qt.toUpper (Qt.toHex bs)
          ++ CalculateCrc (Qt.toUpper (Qt.toHex bs)) ++ Codes.kCRLF)).getD (j + 1) 0)
          = some v1 := by
  have hlen : (Qt.toUpper (Qt.toHex bs)).length = 2 * bs.length := by
    rw [toUpper_length, toHex_length]
  have hget : (0x40 :: (Qt.toUpper (Qt.toHex bs) ++ CalculateCrc (Qt.toUpper (Qt.toHex bs))
      ++ Codes.kCRLF)).getD (j + 1) 0 = (Qt.toUpper (Qt.toHex bs)).getD j 0 := by
    rw [List.getD_cons_succ, List.getD_append _ _ _ _ (by simp [hlen]; omega),
      List.getD_append _ _ _ _ (by omega)]
  rw [hget] at hv ⊢
  have hflip : flipBit (0x40 :: (Qt.toUpper (Qt.toHex bs)
      ++ CalculateCrc (Qt.toUpper (Qt.toHex bs)) ++ Codes.kCRLF)) (j + 1) bit
      = 0x40 :: ((Qt.toUpper (Qt.toHex bs)).set j ((Qt.toUpper (Qt.toHex bs)).getD j 0 ^^^ 2 ^ bit)
          ++ CalculateCrc (Qt.toUpper (Qt.toHex bs)) ++ Codes.kCRLF) := by
    unfold flipBit
    rw [hget, List.set_cons_succ, List.set_append_left _ _ (by simp [hlen]; omega),
      List.set_append_left _ _ (by omega)]
  rw [hflip]
  obtain ⟨pre, b, suf, b1, v, e, hb, hb1, hsuf, hfold, hval, hiff⟩ :=
    fromHexState_set bs hbs [] j hj _ v1 hv
  have hne : (Qt.toUpper (Qt.toHex bs)).set j ((Qt.toUpper (Qt.toHex bs)).getD j 0 ^^^ 2 ^ bit)
      ≠ [] := by
    intro h
    have := congrArg List.length h
    rw [List.length_set, hlen, List.length_nil] at this
    omega
  rw [CheckCrc_frame _ _ _ (CalculateCrc_length _) hne (by rw [List.length_set, hlen]; omega),
    CalculateCrc_eq_iff]
  have h1 : Qt.fromHex ((Qt.toUpper (Qt.toHex bs)).set j
      ((Qt.toUpper (Qt.toHex bs)).getD j 0 ^^^ 2 ^ bit)) = pre ++ b1 :: suf := by
    unfold Qt.fromHex
    rw [hfold]
    simp
  have h2 : Qt.fromHex (Qt.toUpper (Qt.toHex bs)) = pre ++ b :: suf := by
    rw [fromHex_toUpper, fromHex_toHex bs hbs, e]
  rw [h1, h2, hval]
  constructor
  · intro h
    have := foldl_CRC8IN_one_byte pre suf b1 b 0xFF (by norm_num) hb1 hb hsuf h
    rw [hiff.mp this]
  · intro h
    have : v1 = v := by simpa using h.symm
    rw [hiff.mpr this]
theorem CreateWriteCountersMessage_shape (c : Counters) :
    CreateWriteCountersMessage c
      = 0x40 :: (Qt.toUpper (Qt.toHex (0x2F :: (leBytes 4 c.cycles ++ leBytes 4 c.time)))
          ++ CalculateCrc (Qt.toUpper (Qt.toHex (0x2F :: (leBytes 4 c.cycles ++ leBytes 4 c.time))))
          ++ Codes.kCRLF) := by
  have e : Qt.toUpper (Codes.kWriteCounters ++ Counters.Serialize c)
      = Qt.toUpper (Qt.toHex (0x2F :: (leBytes 4 c.cycles ++ leBytes 4 c.time))) := by
    rw [Counters_Serialize_eq, toUpper_toHex_cons, toUpper_append]
    rfl
  unfold CreateWriteCountersMessage
  rw [build_shape, ← CalculateCrc_toUpper, e]

theorem CreateWriteParametersMessage_shape (p : Parameters) :
    CreateWriteParametersMessage p
      = 0x40 :: (Qt.toUpper (Qt.toHex (0x3F :: (leBytes 2 p.cpm ++ leBytes 2 p.tp
            ++ leBytes 2 p.tbc ++ leBytes 2 p.tbtp ++ leBytes 1 p.ct ++ leBytes 2 p.tw)))
          ++ CalculateCrc (Qt.toUpper (Qt.toHex (0x3F :: (leBytes 2 p.cpm ++ leBytes 2 p.tp
            ++ leBytes 2 p.tbc ++ leBytes 2 p.tbtp ++ leBytes 1 p.ct ++ leBytes 2 p.tw))))
          ++ Codes.kCRLF) := by
  have e : Qt.toUpper (Codes.kWriteParameters ++ Parameters.Serialize p)
      = Qt.toUpper (Qt.toHex (0x3F :: (leBytes 2 p.cpm ++ leBytes 2 p.tp
            ++ leBytes 2 p.tbc ++ leBytes 2 p.tbtp ++ leBytes 1 p.ct ++ leBytes 2 p.tw))) := by
    rw [Parameters_Serialize_eq, toUpper_toHex_cons, toUpper_append]
    rfl
  unfold CreateWriteParametersMessage
  rw [build_shape, ← CalculateCrc_toUpper, e]

/-- C2 (counterexample): three single-bit flips in the body of a built frame that
`CheckCrc` accepts. In the write-counters frame for `cycles = 10` the body character `A`
becomes `a` (bit 5); in the frame for `cycles = 57` the body character `9` becomes `;`
(bit 1), which hex decoding skips; in the write-parameters frame for `cpm = 4` a body
character `0` becomes a space (bit 4). -/
theorem C2_single_bit_flip_accepted :
    CheckCrc (flipBit (CreateWriteCountersMessage { cycles := 10, time := 0 }) (3 + 1) 5) = true
    ∧ CheckCrc (flipBit (CreateWriteCountersMessage { cycles := 57, time := 0 }) (3 + 1) 1) = true
    ∧ CheckCrc (flipBit (CreateWriteParametersMessage
        { cpm := 4, tp := 0, tbc := 0, tbtp := 0, ct := 0, tw := 0 }) (3 + 2) 4) = true := by
  set_option maxRecDepth 100000 in decide

/-- C2 (amended): in the frame built by `CreateWriteCountersMessage(c)` (body positions
`i < 16`) or `CreateWriteParametersMessage(p)` (body positions `i < 22`), flip one of the
8 bits of the body character at position `i`. If the flipped character is again a hex
digit, of value `v`, then `CheckCrc` rejects the flipped frame exactly when the original
character does not have the value `v`: every flip to a hex digit of a different value is
rejected, and a flip that only changes the letter case is accepted. -/
theorem C2_hex_digit_flip_rejected (c : Counters) (p : Parameters) (i bit v : Nat)
    (hbit : bit < 8) :
    (i < 16 →
      Qt.fromHexDigit ((CreateWriteCountersMessage c).getD (3 + i) 0 ^^^ 2 ^ bit) = some v →
      (CheckCrc (flipBit (CreateWriteCountersMessage c) (3 + i) bit) = false
        ↔ Qt.fromHexDigit ((CreateWriteCountersMessage c).getD (3 + i) 0) ≠ some v))
    ∧ (i < 22 →
      Qt.fromHexDigit ((CreateWriteParametersMessage p).getD (3 + i) 0 ^^^ 2 ^ bit) = some v →
      (CheckCrc (flipBit (CreateWriteParametersMessage p) (3 + i) bit) = false
        ↔ Qt.fromHexDigit ((CreateWriteParametersMessage p).getD (3 + i) 0) ≠ some v)) := by
  have _ := hbit
  constructor
  · intro hi hv
    rw [CreateWriteCountersMessage_shape] at hv ⊢
    have key := CheckCrc_flip_body (0x2F :: (leBytes 4 c.cycles ++ leBytes 4 c.time))
      (by
        intro b hb
        rcases List.mem_cons.mp hb with h | h
        · omega
        · exact Counters_bytes_lt c b h)
      (by simp [leBytes]) (i + 2) (by simp [leBytes]; omega) bit v
      (by rw [show i + 2 + 1 = 3 + i by omega]; exact hv)
    rw [show i + 2 + 1 = 3 + i by omega] at key
    exact Bool.eq_false_iff.trans (not_congr key)
  · intro hi hv
    rw [CreateWriteParametersMessage_shape] at hv ⊢
    have key := CheckCrc_flip_body (0x3F :: (leBytes 2 p.cpm ++ leBytes 2 p.tp
        ++ leBytes 2 p.tbc ++ leBytes 2 p.tbtp ++ leBytes 1 p.ct ++ leBytes 2 p.tw))
      (by
        intro b hb
        rcases List.mem_cons.mp hb with h | h
        · omega
        · exact Parameters_bytes_lt p b h)
      (by simp [leBytes]) (i + 2) (by simp [leBytes]; omega) bit v
      (by rw [show i + 2 + 1 = 3 + i by omega]; exact hv)
    rw [show i + 2 + 1 = 3 + i by omega] at key
    exact Bool.eq_false_iff.trans (not_congr key)

/-- C2 (amended) at the frames for `cycles = 10, time = 500` and for
`cpm = 1, tp = 2, tbc = 3, tbtp = 4, ct = 255, tw = 600`: flipping bit 0 of the first body
character turns `0` into `1`, and both flipped frames are rejected. -/
theorem C2_hex_digit_flip_rejected_witness :
    (0 : Nat) < 8 ∧ (0 : Nat) < 16 ∧ (0 : Nat) < 22
    ∧ Qt.fromHexDigit ((CreateWriteCountersMessage { cycles := 10, time := 500 }).getD (3 + 0) 0
        ^^^ 2 ^ 0) = some 1
    ∧ CheckCrc (flipBit (CreateWriteCountersMessage { cycles := 10, time := 500 }) (3 + 0) 0)
        = false
    ∧ CheckCrc (flipBit (CreateWriteParametersMessage
        { cpm := 1, tp := 2, tbc := 3, tbtp := 4, ct := 255, tw := 600 }) (3 + 0) 0) = false :=
  ⟨by decide, by decide, by decide, by set_option maxRecDepth 100000 in decide,
    ((C2_hex_digit_flip_rejected { cycles := 10, time := 500 }
        { cpm := 1, tp := 2, tbc := 3, tbtp := 4, ct := 255, tw := 600 } 0 0 1
        (by decide)).1 (by decide) (by set_option maxRecDepth 100000 in decide)).mpr (by set_option maxRecDepth 100000 in decide),
    ((C2_hex_digit_flip_rejected { cycles := 10, time := 500 }
        { cpm := 1, tp := 2, tbc := 3, tbtp := 4, ct := 255, tw := 600 } 0 0 1
        (by decide)).2 (by decide) (by set_option maxRecDepth 100000 in decide)).mpr (by set_option maxRecDepth 100000 in decide)⟩
/-- C3 at `cycles = 10, time = 500` and `cpm = 1, tp = 2, tbc = 3, tbtp = 4, ct = 255,
tw = 600`. -/
theorem C3_serialize_round_trip_witness :
    Counters.InRange { cycles := 10, time := 500 }
    ∧ Parameters.InRange { cpm := 1, tp := 2, tbc := 3, tbtp := 4, ct := 255, tw := 600 }
    ∧ Counters.Deserialize (Counters.Serialize { cycles := 10, time := 500 })
        = { cycles := 10, time := 500 }
    ∧ Parameters.Deserialize
        (Parameters.Serialize { cpm := 1, tp := 2, tbc := 3, tbtp := 4, ct := 255, tw := 600 })
        = { cpm := 1, tp := 2, tbc := 3, tbtp := 4, ct := 255, tw := 600 } :=
  ⟨by norm_num [Counters.InRange], by norm_num [Parameters.InRange],
    C3_serialize_round_trip { cycles := 10, time := 500 }
      { cpm := 1, tp := 2, tbc := 3, tbtp := 4, ct := 255, tw := 600 }
      (by norm_num [Counters.InRange]) (by norm_num [Parameters.InRange])⟩

/-- C5 (counterexample): the ping request is not `@`, `55`, checksum of the byte `0x55`,
CRLF; it is not 7 characters long; and `CheckCrc` does not accept it. -/
theorem C5_ping_has_no_checksum :
    CreatePingMessage
        ≠ ascii "@" ++ ascii "55" ++ [] ++ specUpperHex (specCrc8 [0x55]) ++ Codes.kCRLF
    ∧ CreatePingMessage.length ≠ 7
    ∧ CheckCrc CreatePingMessage ≠ true := by
  decide

/-- C5 (amended): the ping request built by `CreatePingMessage` is `@`, `55`, CRLF with
no checksum: it is 5 characters long and `CheckCrc` rejects it. The handshake carries no
checksum in the other direction either: on a driver that holds no port, `CheckSerialPort`
writes this ping and accepts the candidate exactly when the port opens, the exchange
completes in time and the reply starts with `$55`; `CheckCrc` is not consulted, so the
reply `$55` + CRLF, which `CheckCrc` rejects, is accepted and `FindDevice` emits
`DeviceFound`. -/
theorem C5_ping_frame (t : Transport) (c : Candidate) :
    CreatePingMessage = ascii "@" ++ ascii "55" ++ Codes.kCRLF
    ∧ CreatePingMessage.length = 5
    ∧ CheckCrc CreatePingMessage = false
    ∧ (({ t with driver := { t.driver with _serial_port := none } } : Transport).CheckSerialPort
          c).2
        = (c.openOk && c.reply.bytesWritten && c.reply.readyRead
            && Qt.startsWith c.reply.data (ascii "$" ++ ascii "55"))
    ∧ PortAction.Write c.info CreatePingMessage
        ∈ (({ t with driver := { t.driver with _serial_port := none } } :
            Transport).CheckSerialPort { c with openOk := true }).1.actions
    ∧ CheckCrc (ascii "$55" ++ Codes.kCRLF) = false
    ∧ (Transport.init.CheckSerialPort
        { info := 0, openOk := true,
          reply := { bytesWritten := true, readyRead := true,
                     data := ascii "$55" ++ Codes.kCRLF } }).2 = true
    ∧ (Transport.init.FindDevice
        [{ info := 0, openOk := true,
           reply := { bytesWritten := true, readyRead := true,
                      data := ascii "$55" ++ Codes.kCRLF } }]).2 = EventCode.DeviceFound := by
  have e55 : ascii "$" ++ ascii "55" = Codes.kSlaveMaster ++ Codes.kPing := by decide
  rw [e55]
  refine ⟨by decide, by decide, by decide, ?_, ?_, by decide, by decide, by decide⟩
  · rcases c with ⟨info, ok, bw, rr, data⟩
    simp only [Transport.CheckSerialPort, Transport.WaitReadyRead, Transport.write]
    generalize Qt.startsWith data (Codes.kSlaveMaster ++ Codes.kPing) = sw
    cases ok <;> cases bw <;> cases rr <;> cases sw <;> rfl
  · rcases c with ⟨info, ok, bw, rr, data⟩
    simp only [Transport.CheckSerialPort, Transport.WaitReadyRead, Transport.write]
    generalize Qt.startsWith data (Codes.kSlaveMaster ++ Codes.kPing) = sw
    rcases t with ⟨⟨conn, cs, ps, ms, sp⟩, o, a⟩
    cases bw <;> cases rr <;> cases sw <;>
      simp [Transport.CloseSerialPort]

/-- C7: payload length guard. If the hex-decoding of `raw` does not have exactly 8 bytes,
`Counters::Deserialize(raw)` is the all-zero `Counters`; if it does not have exactly 11
bytes, `Parameters::Deserialize(raw)` is the all-zero `Parameters`; if it does not have
exactly 4 bytes, `MeasuredCharacteristics::Deserialize(raw)` is the all-zero structure. -/
theorem C7_payload_length_guard (raw : QByteArray) :
    ((Qt.fromHex raw).length ≠ 8 → Counters.Deserialize raw = { time := 0, cycles := 0 })
    ∧ ((Qt.fromHex raw).length ≠ 11 →
        Parameters.Deserialize raw = { cpm := 0, tp := 0, tbc := 0, tbtp := 0, ct := 0, tw := 0 })
    ∧ ((Qt.fromHex raw).length ≠ 4 →
        MeasuredCharacteristics.Deserialize raw = { vlt := 0, curr := 0 }) := by
  refine ⟨?_, ?_, ?_⟩
  · intro h
    unfold Counters.Deserialize
    simp only []
    rw [if_neg h]
  · intro h
    unfold Parameters.Deserialize
    simp only []
    rw [if_neg h]
  · intro h
    unfold MeasuredCharacteristics.Deserialize
    simp only []
    rw [if_neg h]

/-- C7 at the 9-byte payload `0A000000F401000055`. -/
theorem C7_payload_length_guard_witness :
    (Qt.fromHex (ascii "0A000000F401000055")).length ≠ 8
    ∧ (Qt.fromHex (ascii "0A000000F401000055")).length ≠ 11
    ∧ (Qt.fromHex (ascii "0A000000F401000055")).length ≠ 4
    ∧ Counters.Deserialize (ascii "0A000000F401000055") = { time := 0, cycles := 0 }
    ∧ Parameters.Deserialize (ascii "0A000000F401000055")
        = { cpm := 0, tp := 0, tbc := 0, tbtp := 0, ct := 0, tw := 0 }
    ∧ MeasuredCharacteristics.Deserialize (ascii "0A000000F401000055")
        = { vlt := 0, curr := 0 } :=
  ⟨by decide, by decide, by decide,
    (C7_payload_length_guard (ascii "0A000000F401000055")).1 (by decide),
    (C7_payload_length_guard (ascii "0A000000F401000055")).2.1 (by decide),
    (C7_payload_length_guard (ascii "0A000000F401000055")).2.2 (by decide)⟩
/-! ## Session -/

/-- C9: connect retry. From state `Initial` with retry counter 0 the connect command moves
the session to `Connect` and emits `FindDevice`; after one and after two consecutive
`DeviceNotFound` events the session is still in `Connect` and has emitted `FindDevice`
again each time; the third consecutive `DeviceNotFound` moves it to `Initial` with the
retry counter 0, shows the "device not found" information and emits nothing more. -/
theorem C9_connect_retry (w : MainWindow) (d0 d1 d2 d3 : DeviceDriver)
    (hs : w.current_state = State.Initial) (hr : w.retry_read_number = 0) :
    (w.ConnectButton d0).current_state = State.Connect
    ∧ (w.ConnectButton d0).emitted = w.emitted ++ [Signal.FindDevice]
    ∧ ((w.ConnectButton d0).Event d1 EventCode.DeviceNotFound).current_state = State.Connect
    ∧ ((w.ConnectButton d0).Event d1 EventCode.DeviceNotFound).emitted
        = w.emitted ++ [Signal.FindDevice, Signal.FindDevice]
    ∧ (((w.ConnectButton d0).Event d1 EventCode.DeviceNotFound).Event d2
        EventCode.DeviceNotFound).current_state = State.Connect
    ∧ (((w.ConnectButton d0).Event d1 EventCode.DeviceNotFound).Event d2
        EventCode.DeviceNotFound).emitted
        = w.emitted ++ [Signal.FindDevice, Signal.FindDevice, Signal.FindDevice]
    ∧ ((((w.ConnectButton d0).Event d1 EventCode.DeviceNotFound).Event d2
        EventCode.DeviceNotFound).Event d3 EventCode.DeviceNotFound).current_state
        = State.Initial
    ∧ ((((w.ConnectButton d0).Event d1 EventCode.DeviceNotFound).Event d2
        EventCode.DeviceNotFound).Event d3 EventCode.DeviceNotFound).retry_read_number = 0
    ∧ ((((w.ConnectButton d0).Event d1 EventCode.DeviceNotFound).Event d2
        EventCode.DeviceNotFound).Event d3 EventCode.DeviceNotFound).screen
        = Screen.Info InfoText.DeviceNotFound
    ∧ ((((w.ConnectButton d0).Event d1 EventCode.DeviceNotFound).Event d2
        EventCode.DeviceNotFound).Event d3 EventCode.DeviceNotFound).emitted
        = w.emitted ++ [Signal.FindDevice, Signal.FindDevice, Signal.FindDevice] := by
  simp [MainWindow.ConnectButton, MainWindow.Event, MainWindow.retryOrGiveUp,
    MainWindow.ShowLoading, MainWindow.ShowInfo, MainWindow.emit, MainWindow.Trace,
    kMaxRetryReadNumber, hs, hr]
/-- C9 at the freshly constructed window and driver. -/
theorem C9_connect_retry_witness :
    MainWindow.init.current_state = State.Initial
    ∧ MainWindow.init.retry_read_number = 0
    ∧ (MainWindow.init.ConnectButton DeviceDriver.init).current_state = State.Connect
    ∧ ((((MainWindow.init.ConnectButton DeviceDriver.init).Event DeviceDriver.init
        EventCode.DeviceNotFound).Event DeviceDriver.init EventCode.DeviceNotFound).Event
        DeviceDriver.init EventCode.DeviceNotFound).current_state = State.Initial :=
  ⟨rfl, rfl,
    (C9_connect_retry MainWindow.init DeviceDriver.init DeviceDriver.init DeviceDriver.init
      DeviceDriver.init rfl rfl).1,
    (C9_connect_retry MainWindow.init DeviceDriver.init DeviceDriver.init DeviceDriver.init
      DeviceDriver.init rfl rfl).2.2.2.2.2.2.1⟩

/-- One round `DeviceFound, ReadCountersError` from `Connect` ends in `Connect` again,
whatever the retry counter was, with `FindDevice` emitted once more. -/
theorem found_then_read_error (w : MainWindow) (d1 d2 : DeviceDriver)
    (hs : w.current_state = State.Connect) :
    ((w.Event d1 EventCode.DeviceFound).Event d2 EventCode.ReadCountersError).current_state
        = State.Connect
    ∧ ((w.Event d1 EventCode.DeviceFound).Event d2 EventCode.ReadCountersError).retry_read_number
        = 1
    ∧ ((w.Event d1 EventCode.DeviceFound).Event d2 EventCode.ReadCountersError).emitted
        = w.emitted ++ [Signal.ReadCounters, Signal.FindDevice] := by
  simp [MainWindow.Event, MainWindow.retryOrGiveUp, MainWindow.ShowLoading, MainWindow.emit,
    MainWindow.Trace, kMaxRetryReadNumber, hs]

theorem foundThenReadError_loop (d : DeviceDriver) (n : Nat) (w : MainWindow)
    (hs : w.current_state = State.Connect) :
    (w.Events (MainWindow.foundThenReadError d n)).current_state = State.Connect
    ∧ (w.Events (MainWindow.foundThenReadError d n)).findDeviceCount = w.findDeviceCount + n := by
  induction n generalizing w with
  | zero => exact ⟨hs, rfl⟩
  | succ n ih =>
    obtain ⟨h1, _, h3⟩ := found_then_read_error w d d hs
    rw [MainWindow.foundThenReadError, MainWindow.Events, MainWindow.Events]
    obtain ⟨i1, i2⟩ := ih _ h1
    refine ⟨i1, ?_⟩
    rw [i2, MainWindow.findDeviceCount, h3, MainWindow.findDeviceCount]
    simp [List.count_append, List.count_cons]
    omega

theorem Event_preserves_ReadGiveUpUnreached (w : MainWindow) (d : DeviceDriver) (e : EventCode)
    (h : w.ReadGiveUpUnreached) : (w.Event d e).ReadGiveUpUnreached := by
  obtain ⟨h1, h2, h3⟩ := h
  have hr : w.current_state ≠ State.Connect → w.retry_read_number = 0 := by
    intro hc
    by_contra h0
    exact hc (h1 h0)
  unfold MainWindow.ReadGiveUpUnreached
  cases hs : w.current_state <;> cases e <;>
    simp [MainWindow.Event, MainWindow.retryOrGiveUp, MainWindow.ShowLoading,
      MainWindow.ShowInfo, MainWindow.ShowProcess, MainWindow.emit, MainWindow.Trace,
      kMaxRetryReadNumber, hs, h2, h3, hr]
  all_goals first
    | exact h1
    | (split_ifs <;>
        simp [MainWindow.ShowLoading, MainWindow.ShowInfo, MainWindow.emit, MainWindow.Trace,
          hr, hs])

theorem Events_preserve_ReadGiveUpUnreached (es : List (DeviceDriver × EventCode))
    (w : MainWindow) (h : w.ReadGiveUpUnreached) : (w.Events es).ReadGiveUpUnreached := by
  induction es generalizing w with
  | nil => exact h
  | cons e es ih => exact ih _ (Event_preserves_ReadGiveUpUnreached w e.1 e.2 h)

/-- C10 (what the code does): after the connect command in `Initial`, the event sequence
`DeviceFound, ReadCountersError, DeviceFound, ReadCountersError, DeviceFound,
ReadCountersError` ends in `Connect` with retry counter 1 and a fourth `FindDevice`
emitted, not in `Initial`; the same holds for any number `n` of repetitions
(`n + 1` discoveries emitted, state `Connect`); and for every event sequence the
give-up branches of the two read failures are never taken. -/
theorem C10_read_failures_retried_without_bound (d : DeviceDriver) (n : Nat)
    (es : List (DeviceDriver × EventCode)) :
    ((MainWindow.init.ConnectButton d).Events
        [(d, EventCode.DeviceFound), (d, EventCode.ReadCountersError),
         (d, EventCode.DeviceFound), (d, EventCode.ReadCountersError),
         (d, EventCode.DeviceFound), (d, EventCode.ReadCountersError)]).current_state
      = State.Connect
    ∧ ((MainWindow.init.ConnectButton d).Events
        [(d, EventCode.DeviceFound), (d, EventCode.ReadCountersError),
         (d, EventCode.DeviceFound), (d, EventCode.ReadCountersError),
         (d, EventCode.DeviceFound), (d, EventCode.ReadCountersError)]).retry_read_number = 1
    ∧ ((MainWindow.init.ConnectButton d).Events
        [(d, EventCode.DeviceFound), (d, EventCode.ReadCountersError),
         (d, EventCode.DeviceFound), (d, EventCode.ReadCountersError),
         (d, EventCode.DeviceFound), (d, EventCode.ReadCountersError)]).findDeviceCount = 4
    ∧ ((MainWindow.init.ConnectButton d).Events
        (MainWindow.foundThenReadError d n)).current_state = State.Connect
    ∧ ((MainWindow.init.ConnectButton d).Events
        (MainWindow.foundThenReadError d n)).findDeviceCount = n + 1
    ∧ ((MainWindow.init.ConnectButton d).Events es).ReadGiveUpUnreached := by
  have hc : (MainWindow.init.ConnectButton d).current_state = State.Connect := by
    simp [MainWindow.ConnectButton, MainWindow.init, MainWindow.ShowLoading, MainWindow.emit]
  have hf : (MainWindow.init.ConnectButton d).findDeviceCount = 1 := by
    simp [MainWindow.ConnectButton, MainWindow.init, MainWindow.ShowLoading, MainWindow.emit,
      MainWindow.findDeviceCount]
  have hinv : (MainWindow.init.ConnectButton d).ReadGiveUpUnreached := by
    simp [MainWindow.ReadGiveUpUnreached, MainWindow.ConnectButton, MainWindow.init,
      MainWindow.ShowLoading, MainWindow.emit]
  obtain ⟨l1, l2⟩ := foundThenReadError_loop d n _ hc
  refine ⟨?_, ?_, ?_, l1, by rw [l2, hf]; omega, Events_preserve_ReadGiveUpUnreached es _ hinv⟩
  · exact (foundThenReadError_loop d 3 _ hc).1
  · simp [MainWindow.Events, MainWindow.ConnectButton, MainWindow.init, MainWindow.Event,
      MainWindow.retryOrGiveUp, MainWindow.ShowLoading, MainWindow.emit, MainWindow.Trace,
      kMaxRetryReadNumber]
  · have := (foundThenReadError_loop d 3 _ hc).2
    rw [hf] at this
    exact this
/-- C11: scenario A. From `Initial` the connect command followed by `DeviceFound`,
`ReadCountersSuccess`, `ReadParametersSuccess` takes the session through `Connect`,
`ReadCounters`, `ReadParameters`, `Ready`; `ReadCounters` is emitted on entering
`ReadCounters` and `ReadParameters` on entering `ReadParameters` (and nothing on entering
`Ready`); in `Ready` the local counters and parameters are the driver snapshots read when
the respective success event was handled. -/
theorem C11_scenario_A (w : MainWindow) (d0 d1 d2 d3 : DeviceDriver)
    (hs : w.current_state = State.Initial) :
    (w.ConnectButton d0).current_state = State.Connect
    ∧ ((w.ConnectButton d0).Events [(d1, EventCode.DeviceFound)]).current_state
        = State.ReadCounters
    ∧ ((w.ConnectButton d0).Events [(d1, EventCode.DeviceFound)]).emitted
        = (w.ConnectButton d0).emitted ++ [Signal.ReadCounters]
    ∧ ((w.ConnectButton d0).Events
        [(d1, EventCode.DeviceFound), (d2, EventCode.ReadCountersSuccess)]).current_state
        = State.ReadParameters
    ∧ ((w.ConnectButton d0).Events
        [(d1, EventCode.DeviceFound), (d2, EventCode.ReadCountersSuccess)]).emitted
        = (w.ConnectButton d0).emitted ++ [Signal.ReadCounters, Signal.ReadParameters]
    ∧ ((w.ConnectButton d0).Events
        [(d1, EventCode.DeviceFound), (d2, EventCode.ReadCountersSuccess),
         (d3, EventCode.ReadParametersSuccess)]).current_state = State.Ready
    ∧ ((w.ConnectButton d0).Events
        [(d1, EventCode.DeviceFound), (d2, EventCode.ReadCountersSuccess),
         (d3, EventCode.ReadParametersSuccess)]).emitted
        = (w.ConnectButton d0).emitted ++ [Signal.ReadCounters, Signal.ReadParameters]
    ∧ ((w.ConnectButton d0).Events
        [(d1, EventCode.DeviceFound), (d2, EventCode.ReadCountersSuccess),
         (d3, EventCode.ReadParametersSuccess)]).local_counters = d2.GetCounters
    ∧ ((w.ConnectButton d0).Events
        [(d1, EventCode.DeviceFound), (d2, EventCode.ReadCountersSuccess),
         (d3, EventCode.ReadParametersSuccess)]).local_parameters = d3.GetParameters := by
  simp [MainWindow.Events, MainWindow.ConnectButton, MainWindow.Event, MainWindow.ShowLoading,
    MainWindow.ShowProcess, MainWindow.emit, hs]

/-- C11 at the freshly constructed window, with a driver whose snapshots are
`cycles = 10, time = 500` and `cpm = 1, tp = 2, tbc = 3, tbtp = 4, ct = 255, tw = 600`. -/
theorem C11_scenario_A_witness :
    MainWindow.init.current_state = State.Initial
    ∧ ((MainWindow.init.ConnectButton DeviceDriver.init).Events
        [({ DeviceDriver.init with _connected := true }, EventCode.DeviceFound),
         ({ DeviceDriver.init with _counters := { cycles := 10, time := 500 } },
            EventCode.ReadCountersSuccess),
         ({ DeviceDriver.init with
              _parameters := { cpm := 1, tp := 2, tbc := 3, tbtp := 4, ct := 255, tw := 600 } },
            EventCode.ReadParametersSuccess)]).current_state = State.Ready
    ∧ ((MainWindow.init.ConnectButton DeviceDriver.init).Events
        [({ DeviceDriver.init with _connected := true }, EventCode.DeviceFound),
         ({ DeviceDriver.init with _counters := { cycles := 10, time := 500 } },
            EventCode.ReadCountersSuccess),
         ({ DeviceDriver.init with
              _parameters := { cpm := 1, tp := 2, tbc := 3, tbtp := 4, ct := 255, tw := 600 } },
            EventCode.ReadParametersSuccess)]).local_counters = { cycles := 10, time := 500 } :=
  ⟨rfl,
    (C11_scenario_A MainWindow.init DeviceDriver.init
      { DeviceDriver.init with _connected := true }
      { DeviceDriver.init with _counters := { cycles := 10, time := 500 } }
      { DeviceDriver.init with
          _parameters := { cpm := 1, tp := 2, tbc := 3, tbtp := 4, ct := 255, tw := 600 } }
      rfl).2.2.2.2.2.1,
    (C11_scenario_A MainWindow.init DeviceDriver.init
      { DeviceDriver.init with _connected := true }
      { DeviceDriver.init with _counters := { cycles := 10, time := 500 } }
      { DeviceDriver.init with
          _parameters := { cpm := 1, tp := 2, tbc := 3, tbtp := 4, ct := 255, tw := 600 } }
      rfl).2.2.2.2.2.2.2.1⟩

/-- C12: write and command transitions. In `WriteCounters`, `WriteCountersSuccess` moves
the session to `ReadCounters` without emitting anything, and the refresh timer started by
the information screen then emits `ReadCounters`; `WriteCountersError` moves it to `Ready`
with nothing emitted and the retry counter unchanged. `WriteParameters` behaves the same
with `WriteParametersSuccess` and `WriteParametersError`. In `LaunchSingleCycle` both
`LaunchSingleCycleSuccess` and `LaunchSingleCycleError` move the session to `Ready` with
nothing emitted and the retry counter unchanged. -/
theorem C12_write_and_command_transitions (w : MainWindow) (d : DeviceDriver) :
    (w.current_state = State.WriteCounters →
      (w.Event d EventCode.WriteCountersSuccess).current_state = State.ReadCounters
      ∧ (w.Event d EventCode.WriteCountersSuccess).emitted = w.emitted
      ∧ (w.Event d EventCode.WriteCountersSuccess).TimerFired.current_state
          = State.ReadCounters
      ∧ (w.Event d EventCode.WriteCountersSuccess).TimerFired.emitted
          = w.emitted ++ [Signal.ReadCounters]
      ∧ (w.Event d EventCode.WriteCountersError).current_state = State.Ready
      ∧ (w.Event d EventCode.WriteCountersError).emitted = w.emitted
      ∧ (w.Event d EventCode.WriteCountersError).retry_read_number = w.retry_read_number
      ∧ (w.Event d EventCode.WriteCountersError).TimerFired.emitted = w.emitted)
    ∧ (w.current_state = State.WriteParameters →
      (w.Event d EventCode.WriteParametersSuccess).current_state = State.ReadCounters
      ∧ (w.Event d EventCode.WriteParametersSuccess).emitted = w.emitted
      ∧ (w.Event d EventCode.WriteParametersSuccess).TimerFired.current_state
          = State.ReadCounters
      ∧ (w.Event d EventCode.WriteParametersSuccess).TimerFired.emitted
          = w.emitted ++ [Signal.ReadCounters]
      ∧ (w.Event d EventCode.WriteParametersError).current_state = State.Ready
      ∧ (w.Event d EventCode.WriteParametersError).emitted = w.emitted
      ∧ (w.Event d EventCode.WriteParametersError).retry_read_number = w.retry_read_number
      ∧ (w.Event d EventCode.WriteParametersError).TimerFired.emitted = w.emitted)
    ∧ (w.current_state = State.LaunchSingleCycle →
      (w.Event d EventCode.LaunchSingleCycleSuccess).current_state = State.Ready
      ∧ (w.Event d EventCode.LaunchSingleCycleSuccess).emitted = w.emitted
      ∧ (w.Event d EventCode.LaunchSingleCycleSuccess).retry_read_number
          = w.retry_read_number
      ∧ (w.Event d EventCode.LaunchSingleCycleSuccess).TimerFired.emitted = w.emitted
      ∧ (w.Event d EventCode.LaunchSingleCycleError).current_state = State.Ready
      ∧ (w.Event d EventCode.LaunchSingleCycleError).emitted = w.emitted
      ∧ (w.Event d EventCode.LaunchSingleCycleError).retry_read_number = w.retry_read_number
      ∧ (w.Event d EventCode.LaunchSingleCycleError).TimerFired.emitted = w.emitted) := by
  refine ⟨?_, ?_, ?_⟩ <;> intro hs <;>
    simp [MainWindow.Event, MainWindow.TimerFired, MainWindow.RefreshWindow,
      MainWindow.ShowInfo, MainWindow.ShowLoading, MainWindow.ShowProcess, MainWindow.emit,
      MainWindow.Trace, hs]

/-- C13: disconnection override. In every state and for every retry counter,
`DeviceDisconnected` leaves the session in `Initial` with the retry counter 0 and emits
nothing; after a disconnection delivered in `LaunchSingleCycle` a later
`LaunchSingleCycleSuccess` or `LaunchSingleCycleError` leaves the session in `Initial`
and emits nothing. -/
theorem C13_disconnection_override (w : MainWindow) (d d1 : DeviceDriver) :
    (w.Event d EventCode.DeviceDisconnected).current_state = State.Initial
    ∧ (w.Event d EventCode.DeviceDisconnected).retry_read_number = 0
    ∧ (w.Event d EventCode.DeviceDisconnected).emitted = w.emitted
    ∧ (w.Event d EventCode.DeviceDisconnected).screen = Screen.Info InfoText.Disconnected
    ∧ ((w.Event d EventCode.DeviceDisconnected).Event d1
        EventCode.LaunchSingleCycleSuccess).current_state = State.Initial
    ∧ ((w.Event d EventCode.DeviceDisconnected).Event d1
        EventCode.LaunchSingleCycleError).current_state = State.Initial
    ∧ ((w.Event d EventCode.DeviceDisconnected).Event d1
        EventCode.LaunchSingleCycleSuccess).emitted = w.emitted
    ∧ ((w.Event d EventCode.DeviceDisconnected).Event d1
        EventCode.LaunchSingleCycleError).emitted = w.emitted
    ∧ ((MainWindow.init.SingleCycleButton).Event d EventCode.DeviceDisconnected).current_state
        = State.Initial := by
  simp [MainWindow.Event, MainWindow.ShowInfo, MainWindow.SingleCycleButton]
/-! ## Driver operations -/

theorem CloseSerialPort_driver (t : Transport) :
    t.CloseSerialPort.driver = { t.driver with _connected := false, _serial_port := none } := by
  rcases t with ⟨⟨c, cs, ps, ms, sp⟩, o, a⟩
  cases sp <;> cases o <;> rfl

theorem CloseSerialPort_snapshots (t : Transport) : t.CloseSerialPort.snapshots = t.snapshots := by
  simp [Transport.snapshots, CloseSerialPort_driver]

/-- C14: snapshot integrity. For a driver that holds a port whenever it is connected, each
of `ReadCounters`, `ReadParameters`, `LaunchSingleCycle` returns, and if the driver is not
connected, or no reply arrives, or the reply does not start with `$` and the opcode, or
`CheckCrc` fails, all three snapshots are unchanged; otherwise only the snapshot of the
operation changes, to `Deserialize(ExtractData(raw))`. `WriteCounters` and
`WriteParameters` return and change no snapshot. -/
theorem C14_snapshot_integrity (t : Transport) (r : PortReply) (c : Counters) (p : Parameters)
    (h : t.PortHeld) :
    (∃ t1 e, t.ReadCounters r = some (t1, e)
      ∧ ((t.driver._connected = false ∨ (r.bytesWritten && r.readyRead) = false
            ∨ Qt.startsWith r.data (ascii "$" ++ ascii "20") = false ∨ CheckCrc r.data = false) →
          t1.snapshots = t.snapshots)
      ∧ ((t.driver._connected = true ∧ (r.bytesWritten && r.readyRead) = true
            ∧ Qt.startsWith r.data (ascii "$" ++ ascii "20") = true ∧ CheckCrc r.data = true) →
          t1.snapshots = (Counters.Deserialize (ExtractData r.data), t.driver._parameters,
            t.driver._characteristics)))
    ∧ (∃ t1 e, t.ReadParameters r = some (t1, e)
      ∧ ((t.driver._connected = false ∨ (r.bytesWritten && r.readyRead) = false
            ∨ Qt.startsWith r.data (ascii "$" ++ ascii "30") = false ∨ CheckCrc r.data = false) →
          t1.snapshots = t.snapshots)
      ∧ ((t.driver._connected = true ∧ (r.bytesWritten && r.readyRead) = true
            ∧ Qt.startsWith r.data (ascii "$" ++ ascii "30") = true ∧ CheckCrc r.data = true) →
          t1.snapshots = (t.driver._counters, Parameters.Deserialize (ExtractData r.data),
            t.driver._characteristics)))
    ∧ (∃ t1 e, t.LaunchSingleCycle r = some (t1, e)
      ∧ ((t.driver._connected = false ∨ (r.bytesWritten && r.readyRead) = false
            ∨ Qt.startsWith r.data (ascii "$" ++ ascii "40") = false ∨ CheckCrc r.data = false) →
          t1.snapshots = t.snapshots)
      ∧ ((t.driver._connected = true ∧ (r.bytesWritten && r.readyRead) = true
            ∧ Qt.startsWith r.data (ascii "$" ++ ascii "40") = true ∧ CheckCrc r.data = true) →
          t1.snapshots = (t.driver._counters, t.driver._parameters,
            MeasuredCharacteristics.Deserialize (ExtractData r.data))))
    ∧ (∃ t1 e, t.WriteCounters c r = some (t1, e) ∧ t1.snapshots = t.snapshots)
    ∧ (∃ t1 e, t.WriteParameters p r = some (t1, e) ∧ t1.snapshots = t.snapshots) := by
  have e20 : ascii "$" ++ ascii "20" = Codes.kSlaveMaster ++ Codes.kReadCounters := by decide
  have e30 : ascii "$" ++ ascii "30" = Codes.kSlaveMaster ++ Codes.kReadParameters := by decide
  have e40 : ascii "$" ++ ascii "40" = Codes.kSlaveMaster ++ Codes.kSingleCycle := by decide
  rw [e20, e30, e40]
  unfold Transport.PortHeld at h
  rcases t with ⟨⟨conn, cs, ps, ms, sp⟩, o, a⟩
  cases conn
  · simp [Transport.ReadCounters, Transport.ReadParameters, Transport.LaunchSingleCycle,
      Transport.WriteCounters, Transport.WriteParameters, CloseSerialPort_snapshots]
  · cases sp with
    | none => simp at h
    | some info =>
      rcases r with ⟨bw, rr, data⟩
      refine ⟨?_, ?_, ?_, ?_, ?_⟩
      · simp only [Transport.ReadCounters, Transport.WaitReadyRead, Transport.write]
        generalize Qt.startsWith data (Codes.kSlaveMaster ++ Codes.kReadCounters) = sw
        generalize CheckCrc data = ck
        cases bw <;> cases rr <;> cases sw <;> cases ck <;>
          simp [CloseSerialPort_driver, Transport.snapshots]
      · simp only [Transport.ReadParameters, Transport.WaitReadyRead, Transport.write]
        generalize Qt.startsWith data (Codes.kSlaveMaster ++ Codes.kReadParameters) = sw
        generalize CheckCrc data = ck
        cases bw <;> cases rr <;> cases sw <;> cases ck <;>
          simp [CloseSerialPort_driver, Transport.snapshots]
      · simp only [Transport.LaunchSingleCycle, Transport.WaitReadyRead, Transport.write]
        generalize Qt.startsWith data (Codes.kSlaveMaster ++ Codes.kSingleCycle) = sw
        generalize CheckCrc data = ck
        cases bw <;> cases rr <;> cases sw <;> cases ck <;>
          simp [CloseSerialPort_driver, Transport.snapshots]
      · simp only [Transport.WriteCounters, Transport.WaitReadyRead, Transport.write]
        generalize Qt.startsWith data (Codes.kSlaveMaster ++ Codes.kWriteCounters) = sw
        generalize CheckCrc data = ck
        cases bw <;> cases rr <;> cases sw <;> cases ck <;>
          simp [CloseSerialPort_driver, Transport.snapshots]
      · simp only [Transport.WriteParameters, Transport.WaitReadyRead, Transport.write]
        generalize Qt.startsWith data (Codes.kSlaveMaster ++ Codes.kWriteParameters) = sw
        generalize CheckCrc data = ck
        cases bw <;> cases rr <;> cases sw <;> cases ck <;>
          simp [CloseSerialPort_driver, Transport.snapshots]
/-- C14 at a connected driver holding port 0 and the reply `$200A000000F4010000B9` + CRLF:
`ReadCounters` returns and the counters snapshot becomes `cycles = 10, time = 500`. -/
theorem C14_snapshot_integrity_witness :
    (Transport.holding 0).PortHeld
    ∧ ∃ t1 e, (Transport.holding 0).ReadCounters countersReply = some (t1, e)
        ∧ t1.snapshots = ({ cycles := 10, time := 500 },
            { cpm := 0, tp := 0, tbc := 0, tbtp := 0, ct := 0, tw := 0 },
            { vlt := 0, curr := 0 }) :=
  ⟨fun _ => rfl, by
    obtain ⟨t1, e, h1, _, h3⟩ :=
      (C14_snapshot_integrity (Transport.holding 0) countersReply
        { cycles := 0, time := 0 } { cpm := 0, tp := 0, tbc := 0, tbtp := 0, ct := 0, tw := 0 }
        (fun _ => rfl)).1
    exact ⟨t1, e, h1, (h3 ⟨rfl, rfl, by decide, by
      set_option maxRecDepth 100000 in decide⟩).trans (by
      set_option maxRecDepth 100000 in decide)⟩⟩

/-- C16: every failed exchange tears the transport down. For a driver that holds a port
whenever it is connected, each of the five operations returns with its `Error` or its
`Success` event; after the `Error` event the port pointer is null and `IsConnected()` is
false; after the `Success` event the port pointer, the connected flag and the open state
of the port are unchanged. Hence a session in `WriteCounters`, `WriteParameters` or
`LaunchSingleCycle` that handles the `Error` event of its operation is in `Ready` while the
driver is disconnected. -/
theorem C16_failed_exchange_closes_port (t : Transport) (r : PortReply) (c : Counters)
    (p : Parameters) (w : MainWindow) (h : t.PortHeld) :
    (∃ t1 e, t.ReadCounters r = some (t1, e)
      ∧ (e = EventCode.ReadCountersError ∨ e = EventCode.ReadCountersSuccess)
      ∧ (e = EventCode.ReadCountersError →
          t1.driver._serial_port = none ∧ t1.driver.IsConnected = false)
      ∧ (e = EventCode.ReadCountersSuccess →
          t1.driver._serial_port = t.driver._serial_port
          ∧ t1.driver._connected = t.driver._connected ∧ t1.port_is_open = t.port_is_open))
    ∧ (∃ t1 e, t.WriteCounters c r = some (t1, e)
      ∧ (e = EventCode.WriteCountersError ∨ e = EventCode.WriteCountersSuccess)
      ∧ (e = EventCode.WriteCountersError →
          t1.driver._serial_port = none ∧ t1.driver.IsConnected = false)
      ∧ (e = EventCode.WriteCountersSuccess →
          t1.driver._serial_port = t.driver._serial_port
          ∧ t1.driver._connected = t.driver._connected ∧ t1.port_is_open = t.port_is_open)
      ∧ (e = EventCode.WriteCountersError → w.current_state = State.WriteCounters →
          (w.Event t1.driver e).current_state = State.Ready ∧ t1.driver.IsConnected = false))
    ∧ (∃ t1 e, t.ReadParameters r = some (t1, e)
      ∧ (e = EventCode.ReadParametersError ∨ e = EventCode.ReadParametersSuccess)
      ∧ (e = EventCode.ReadParametersError →
          t1.driver._serial_port = none ∧ t1.driver.IsConnected = false)
      ∧ (e = EventCode.ReadParametersSuccess →
          t1.driver._serial_port = t.driver._serial_port
          ∧ t1.driver._connected = t.driver._connected ∧ t1.port_is_open = t.port_is_open))
    ∧ (∃ t1 e, t.WriteParameters p r = some (t1, e)
      ∧ (e = EventCode.WriteParametersError ∨ e = EventCode.WriteParametersSuccess)
      ∧ (e = EventCode.WriteParametersError →
          t1.driver._serial_port = none ∧ t1.driver.IsConnected = false)
      ∧ (e = EventCode.WriteParametersSuccess →
          t1.driver._serial_port = t.driver._serial_port
          ∧ t1.driver._connected = t.driver._connected ∧ t1.port_is_open = t.port_is_open)
      ∧ (e = EventCode.WriteParametersError → w.current_state = State.WriteParameters →
          (w.Event t1.driver e).current_state = State.Ready ∧ t1.driver.IsConnected = false))
    ∧ (∃ t1 e, t.LaunchSingleCycle r = some (t1, e)
      ∧ (e = EventCode.LaunchSingleCycleError ∨ e = EventCode.LaunchSingleCycleSuccess)
      ∧ (e = EventCode.LaunchSingleCycleError →
          t1.driver._serial_port = none ∧ t1.driver.IsConnected = false)
      ∧ (e = EventCode.LaunchSingleCycleSuccess →
          t1.driver._serial_port = t.driver._serial_port
          ∧ t1.driver._connected = t.driver._connected ∧ t1.port_is_open = t.port_is_open)
      ∧ (e = EventCode.LaunchSingleCycleError → w.current_state = State.LaunchSingleCycle →
          (w.Event t1.driver e).current_state = State.Ready
          ∧ t1.driver.IsConnected = false)) := by
  unfold Transport.PortHeld at h
  rcases t with ⟨⟨conn, cs, ps, ms, sp⟩, o, a⟩
  rcases r with ⟨bw, rr, data⟩
  cases conn
  · refine ⟨⟨_, _, rfl, ?_⟩, ⟨_, _, rfl, ?_⟩, ⟨_, _, rfl, ?_⟩, ⟨_, _, rfl, ?_⟩, ⟨_, _, rfl, ?_⟩⟩ <;>
      simp [CloseSerialPort_driver, DeviceDriver.IsConnected] <;>
      intro hs <;> simp [MainWindow.Event, MainWindow.ShowInfo, MainWindow.Trace, hs]
  · cases sp with
    | none => simp at h
    | some info =>
      refine ⟨?_, ?_, ?_, ?_, ?_⟩
      · simp only [Transport.ReadCounters, Transport.WaitReadyRead, Transport.write]
        generalize Qt.startsWith data (Codes.kSlaveMaster ++ Codes.kReadCounters) = sw
        generalize CheckCrc data = ck
        cases bw <;> cases rr <;> cases sw <;> cases ck <;>
          refine ⟨_, _, rfl, ?_⟩ <;>
          simp [CloseSerialPort_driver, DeviceDriver.IsConnected]
      · simp only [Transport.WriteCounters, Transport.WaitReadyRead, Transport.write]
        generalize Qt.startsWith data (Codes.kSlaveMaster ++ Codes.kWriteCounters) = sw
        generalize CheckCrc data = ck
        cases bw <;> cases rr <;> cases sw <;> cases ck <;>
          refine ⟨_, _, rfl, ?_⟩ <;>
          simp [CloseSerialPort_driver, DeviceDriver.IsConnected] <;>
          intro hs <;> simp [MainWindow.Event, MainWindow.ShowInfo, MainWindow.Trace, hs]
      · simp only [Transport.ReadParameters, Transport.WaitReadyRead, Transport.write]
        generalize Qt.startsWith data (Codes.kSlaveMaster ++ Codes.kReadParameters) = sw
        generalize CheckCrc data = ck
        cases bw <;> cases rr <;> cases sw <;> cases ck <;>
          refine ⟨_, _, rfl, ?_⟩ <;>
          simp [CloseSerialPort_driver, DeviceDriver.IsConnected]
      · simp only [Transport.WriteParameters, Transport.WaitReadyRead, Transport.write]
        generalize Qt.startsWith data (Codes.kSlaveMaster ++ Codes.kWriteParameters) = sw
        generalize CheckCrc data = ck
        cases bw <;> cases rr <;> cases sw <;> cases ck <;>
          refine ⟨_, _, rfl, ?_⟩ <;>
          simp [CloseSerialPort_driver, DeviceDriver.IsConnected] <;>
          intro hs <;> simp [MainWindow.Event, MainWindow.ShowInfo, MainWindow.Trace, hs]
      · simp only [Transport.LaunchSingleCycle, Transport.WaitReadyRead, Transport.write]
        generalize Qt.startsWith data (Codes.kSlaveMaster ++ Codes.kSingleCycle) = sw
        generalize CheckCrc data = ck
        cases bw <;> cases rr <;> cases sw <;> cases ck <;>
          refine ⟨_, _, rfl, ?_⟩ <;>
          simp [CloseSerialPort_driver, DeviceDriver.IsConnected] <;>
          intro hs <;> simp [MainWindow.Event, MainWindow.ShowInfo, MainWindow.Trace, hs]

/-- C16 at a connected driver holding port 0 whose write-counters request gets no reply:
the operation emits `WriteCountersError`, the port pointer is null, the driver is
disconnected, and a session in `WriteCounters` ends in `Ready`. -/
theorem C16_failed_exchange_closes_port_witness :
    (Transport.holding 0).PortHeld
    ∧ (MainWindow.init.WriteCountersButton { cycles := 10, time := 500 }
        { cpm := 0, tp := 0, tbc := 0, tbtp := 0, ct := 0, tw := 0 }).current_state
        = State.WriteCounters
    ∧ ∃ t1 e, (Transport.holding 0).WriteCounters { cycles := 10, time := 500 } noReply
          = some (t1, e)
        ∧ e = EventCode.WriteCountersError
        ∧ t1.driver._serial_port = none ∧ t1.driver.IsConnected = false
        ∧ ((MainWindow.init.WriteCountersButton { cycles := 10, time := 500 }
            { cpm := 0, tp := 0, tbc := 0, tbtp := 0, ct := 0, tw := 0 }).Event
            t1.driver e).current_state = State.Ready :=
  ⟨fun _ => rfl, rfl, by
    obtain ⟨t1, e, h1, _, h3, _, h5⟩ :=
      (C16_failed_exchange_closes_port (Transport.holding 0) noReply
        { cycles := 10, time := 500 } { cpm := 0, tp := 0, tbc := 0, tbtp := 0, ct := 0, tw := 0 }
        (MainWindow.init.WriteCountersButton { cycles := 10, time := 500 }
          { cpm := 0, tp := 0, tbc := 0, tbtp := 0, ct := 0, tw := 0 })
        (fun _ => rfl)).2.1
    have h2 : (Transport.holding 0).WriteCounters { cycles := 10, time := 500 } noReply
        = some (((Transport.holding 0).write 0
            (CreateWriteCountersMessage { cycles := 10, time := 500 })).CloseSerialPort,
          EventCode.WriteCountersError) := rfl
    have he : e = EventCode.WriteCountersError := by
      rw [h2] at h1
      exact (congrArg Prod.snd (Option.some.inj h1)).symm
    exact ⟨t1, e, h1, he, (h3 he).1, (h3 he).2, (h5 he rfl).1⟩⟩
/-- C12 at the windows obtained from the fresh window by the write-counters,
write-parameters and single-cycle commands. -/
theorem C12_write_and_command_transitions_witness :
    (MainWindow.init.WriteCountersButton { cycles := 10, time := 500 }
        { cpm := 0, tp := 0, tbc := 0, tbtp := 0, ct := 0, tw := 0 }).current_state
      = State.WriteCounters
    ∧ ((MainWindow.init.WriteCountersButton { cycles := 10, time := 500 }
        { cpm := 0, tp := 0, tbc := 0, tbtp := 0, ct := 0, tw := 0 }).Event DeviceDriver.init
        EventCode.WriteCountersSuccess).current_state = State.ReadCounters
    ∧ (MainWindow.init.WriteParametersButton { cycles := 10, time := 500 }
        { cpm := 0, tp := 0, tbc := 0, tbtp := 0, ct := 0, tw := 0 }).current_state
      = State.WriteParameters
    ∧ ((MainWindow.init.WriteParametersButton { cycles := 10, time := 500 }
        { cpm := 0, tp := 0, tbc := 0, tbtp := 0, ct := 0, tw := 0 }).Event DeviceDriver.init
        EventCode.WriteParametersError).current_state = State.Ready
    ∧ MainWindow.init.SingleCycleButton.current_state = State.LaunchSingleCycle
    ∧ (MainWindow.init.SingleCycleButton.Event DeviceDriver.init
        EventCode.LaunchSingleCycleError).current_state = State.Ready :=
  ⟨rfl,
    ((C12_write_and_command_transitions
      (MainWindow.init.WriteCountersButton { cycles := 10, time := 500 }
        { cpm := 0, tp := 0, tbc := 0, tbtp := 0, ct := 0, tw := 0 })
      DeviceDriver.init).1 rfl).1,
    rfl,
    ((C12_write_and_command_transitions
      (MainWindow.init.WriteParametersButton { cycles := 10, time := 500 }
        { cpm := 0, tp := 0, tbc := 0, tbtp := 0, ct := 0, tw := 0 })
      DeviceDriver.init).2.1 rfl).2.2.2.2.1,
    rfl,
    ((C12_write_and_command_transitions MainWindow.init.SingleCycleButton
      DeviceDriver.init).2.2 rfl).2.2.2.2.1⟩

/-- C15 (what the code does): `FindDevice` on a connected driver that holds the open port
`info`. With no candidate port nothing is touched and `DeviceFound` is emitted. With a
candidate list `c :: rest`, the check of `c` neither creates nor opens a port for `c` but
closes and deletes the held port and clears the connected flag, and discovery goes on with
`rest` from the disconnected driver; with the single candidate `c` the outcome is
`DeviceNotFound` with the driver disconnected. -/
theorem C15_rediscovery_closes_held_port (info : Nat) (c : Candidate) (rest : List Candidate) :
    (Transport.holding info).FindDevice [] = (Transport.holding info, EventCode.DeviceFound)
    ∧ (Transport.holding info).CheckSerialPort c
        = ({ driver := DeviceDriver.init, port_is_open := false,
             actions := [PortAction.Close info, PortAction.Delete info] }, false)
    ∧ (Transport.holding info).FindDevice (c :: rest)
        = ({ driver := DeviceDriver.init, port_is_open := false,
             actions := [PortAction.Close info, PortAction.Delete info] } : Transport).FindDevice
            rest
    ∧ (Transport.holding info).FindDevice [c]
        = ({ driver := DeviceDriver.init, port_is_open := false,
             actions := [PortAction.Close info, PortAction.Delete info] },
           EventCode.DeviceNotFound) := by
  refine ⟨rfl, rfl, ?_, rfl⟩
  simp [Transport.FindDevice, Transport.FindDevice_loop, Transport.CheckSerialPort,
    Transport.holding, Transport.CloseSerialPort, DeviceDriver.init]
/-! ## Bijectivity of the checksum step -/

set_option maxRecDepth 100000 in
theorem CRC8IN_round_unround : ∀ y < 256,
    CRC8IN_round (CRC8IN_unround y) = y ∧ CRC8IN_unround y < 256 := by
  decide

theorem CRC8IN_unround_iterate_lt (n y : Nat) (hy : y < 256) : CRC8IN_unround^[n] y < 256 := by
  induction n with
  | zero => exact hy
  | succ n ih =>
    rw [Function.iterate_succ_apply']
    exact (CRC8IN_round_unround _ ih).2

theorem CRC8IN_loop_unround (n y : Nat) (hy : y < 256) :
    CRC8IN_loop n (CRC8IN_unround^[n] y) = y := by
  induction n with
  | zero => rfl
  | succ n ih =>
    rw [CRC8IN_loop, Function.iterate_succ_apply',
      (CRC8IN_round_unround _ (CRC8IN_unround_iterate_lt n y hy)).1, ih]

/-- C17: the checksum step is invertible in each argument. For every byte `c` the map
`b ↦ CRC8IN(c, b)` is a bijection of `0..255`, and for every byte `b` the map
`c ↦ CRC8IN(c, b)` is a bijection of `0..255`. Hence two byte sequences of equal length
that differ in exactly one byte position get different checksums from `CalculateCrc`
applied to their hex encodings. -/
theorem C17_crc_step_bijective (c b x y : Nat) (pre suf : List Nat)
    (hc : c < 256) (hb : b < 256) (hx : x < 256) (hy : y < 256) (hxy : x ≠ y)
    (hpre : ∀ z ∈ pre, z < 256) (hsuf : ∀ z ∈ suf, z < 256) :
    Set.BijOn (fun b => CRC8IN c b) {n | n < 256} {n | n < 256}
    ∧ Set.BijOn (fun c => CRC8IN c b) {n | n < 256} {n | n < 256}
    ∧ CalculateCrc (Qt.toHex (pre ++ x :: suf)) ≠ CalculateCrc (Qt.toHex (pre ++ y :: suf)) := by
  refine ⟨⟨?_, ?_, ?_⟩, ⟨?_, ?_, ?_⟩, ?_⟩
  · intro b _
    exact CRC8IN_lt c b
  · intro b1 h1 b2 h2 h
    exact CRC8IN_injective_right c b1 b2 hc h1 h2 h
  · intro v hv
    have hu := CRC8IN_unround_iterate_lt 8 v hv
    refine ⟨c ^^^ CRC8IN_unround^[8] v, xor_lt_256 _ _ hc hu, ?_⟩
    show CRC8IN c (c ^^^ CRC8IN_unround^[8] v) = v
    unfold CRC8IN
    rw [Nat.xor_cancel_left, Nat.mod_eq_of_lt hu, CRC8IN_loop_unround 8 v hv]
  · intro c1 _
    exact CRC8IN_lt c1 b
  · intro c1 h1 c2 h2 h
    exact CRC8IN_injective_left b c1 c2 hb h1 h2 h
  · intro v hv
    have hu := CRC8IN_unround_iterate_lt 8 v hv
    refine ⟨CRC8IN_unround^[8] v ^^^ b, xor_lt_256 _ _ hu hb, ?_⟩
    show CRC8IN (CRC8IN_unround^[8] v ^^^ b) b = v
    unfold CRC8IN
    rw [Nat.xor_cancel_right, Nat.mod_eq_of_lt hu, CRC8IN_loop_unround 8 v hv]
  · intro h
    have hall1 : ∀ z ∈ pre ++ x :: suf, z < 256 := by
      intro z hz
      rcases List.mem_append.mp hz with h1 | h1
      · exact hpre z h1
      · rcases List.mem_cons.mp h1 with h2 | h2
        · rw [h2]; exact hx
        · exact hsuf z h2
    have hall2 : ∀ z ∈ pre ++ y :: suf, z < 256 := by
      intro z hz
      rcases List.mem_append.mp hz with h1 | h1
      · exact hpre z h1
      · rcases List.mem_cons.mp h1 with h2 | h2
        · rw [h2]; exact hy
        · exact hsuf z h2
    rw [CalculateCrc_eq_iff, fromHex_toHex _ hall1, fromHex_toHex _ hall2] at h
    exact hxy (foldl_CRC8IN_one_byte pre suf x y 0xFF (by norm_num) hx hy hsuf h)

/-- C17 at `c = 0xFF`, `b = 0x2F` and the byte sequences `2F 0A 00` and `2F 0B 00`, which
differ in one bit of the middle byte. -/
theorem C17_crc_step_bijective_witness :
    (0xFF : Nat) < 256 ∧ (0x2F : Nat) < 256 ∧ (0x0A : Nat) ≠ 0x0B
    ∧ Set.BijOn (fun b => CRC8IN 0xFF b) {n | n < 256} {n | n < 256}
    ∧ Set.BijOn (fun c => CRC8IN c 0x2F) {n | n < 256} {n | n < 256}
    ∧ CalculateCrc (Qt.toHex ([0x2F] ++ 0x0A :: [0]))
        ≠ CalculateCrc (Qt.toHex ([0x2F] ++ 0x0B :: [0])) :=
  ⟨by decide, by decide, by decide,
    C17_crc_step_bijective 0xFF 0x2F 0x0A 0x0B [0x2F] [0] (by decide) (by decide) (by decide)
      (by decide) (by decide) (by decide) (by decide)⟩
end Archipelago
